import Mathlib

/-!
Shallow embedding of the concurrent media-ingestion-and-classification
pipeline of this repository (an NSFW detector API server).  The definitions
below are translated from the JavaScript sources:

  * `getUrlType` / `getUrlTypeLegacy`     — src/util.mjs (both variants)
  * `phTier`                              — src/prediction-handler.mjs,
                                            `_getScreenshotBufferWithFallbacks`
  * `vpTier`                              — src/video-processor.mjs,
                                            `getScreenshotBufferWithFallbacks`
  * `processUrlForPrediction`             — src/prediction-handler.mjs
  * `vpProcessUrlForPrediction`           — src/video-processor.mjs
  * `processDataForPrediction`            — src/data-processor.mjs
  * `runImagePredictionPipeline`          — src/image-prediction-pipeline.mjs
  * `NsfwSpyResult.make`                  — src/nsfw-detector.mjs
  * `raceStep` / `runRace`                — the event-loop semantics of the
                                            mutex get-or-create prologue
                                            (prediction-handler.mjs lines
                                            203-215, with the p-memoize v7
                                            internals)
  * `mutexRegistryAfter`                  — the plain-Map mutex registry of
                                            index.mjs (`const mutexes = new Map()`)

External effects (network downloads, ffmpeg invocations, the worker pool,
file I/O) are modelled as environment fields of type `Except String _`:
each field is the outcome the external call would produce.  The embedding
threads an explicit event trace so that theorems can speak about which
operations ran, what was deleted and how often the keyed mutex was
released.  Classification payloads and byte buffers are opaque (`Nat` ids):
none of the verified control flow inspects them.
-/

namespace NsfwDetector

/-- Opaquely identified byte buffer (the control flow never inspects bytes). -/
abbrev Buf := Nat

/-- Opaquely identified classification result payload. -/
abbrev Pred := Nat

/-- Observable events of one request, in program order: each constructor is
one call the coordinator makes (download / screenshot / transform / classify),
a mutex release, a temp-file deletion attempt (with its warn on failure) or a
result-cache insertion. -/
inductive Ev
  | getContentInfoEv
  | getVideoStreamEv
  | genShotFromStreamEv
  | downloadPartBufferEv
  | genShotFromBufferEv
  | downloadPartFileEv (dest : String)
  | genScreenshotEv
  | readShotEv
  | downloadFileToBufferEv
  | downloadFileEv (dest : String)
  | moveFileEv
  | writeFileEv (dest : String)
  | processImageDataEv
  | processImageFileEv
  | classifyBufferEv
  | classifyFileEv
  | releaseEv
  | deleteAttemptEv (p : String)
  | deleteWarnEv (p : String)
  | cacheSetEv (k : String)
deriving DecidableEq, Repr

/-! ## util.mjs — getUrlType -/

/-- Extensions the source treats as images (util.mjs, both variants). -/
def imageExtensions : List String := [".png", ".jpg", ".jpeg", ".gif", ".webp"]

/-- Extensions selecting the video path in the current util.mjs variant. -/
def videoExtensions : List String := [".mp4", ".mov", ".wmv", ".webm", ".avi", ".mkv"]

/-- Extensions selecting the video path in the legacy util.mjs variant
(no `.mkv`). -/
def videoExtensionsLegacy : List String := [".mp4", ".mov", ".wmv", ".webm", ".avi"]

/-- `path.split('?')[0]` of the source: the characters before the first `?`. -/
def pathBeforeQuery (url : String) : List Char := url.data.takeWhile (fun c => c ≠ '?')

/-- The suffix of `l` starting at the LAST `.` (mirrors
`substring(lastIndexOf('.'))`); `none` when there is no dot. -/
def suffixFromLastDot : List Char → Option (List Char)
  | [] => none
  | c :: cs =>
    match suffixFromLastDot cs with
    | some r => some r
    | none => if c = '.' then some (c :: cs) else none

/-- The lowercased extension the source computes:
`parts[0].substring(lastDotIndex).toLowerCase()` (ASCII lowercasing — the
extension lists compared against are ASCII). -/
def lowerExtension (url : String) : Option String :=
  (suffixFromLastDot (pathBeforeQuery url)).map (fun l => String.mk (l.map Char.toLower))

/-- util.mjs `getUrlType` (current variant): image list is checked first,
then the video list (with `.mkv`), otherwise `link`; no dot at all gives
`unknown`. -/
def getUrlType (url : String) : String :=
  match lowerExtension url with
  | none => "unknown"
  | some e =>
    if e ∈ imageExtensions then "image"
    else if e ∈ videoExtensions then "video"
    else "link"

/-- util.mjs `getUrlType` (legacy variant): same logic without `.mkv`. -/
def getUrlTypeLegacy (url : String) : String :=
  match lowerExtension url with
  | none => "unknown"
  | some e =>
    if e ∈ imageExtensions then "image"
    else if e ∈ videoExtensionsLegacy then "video"
    else "link"

/-! ## nsfw-detector.mjs — NsfwSpyResult -/

/-- The dictionary the source builds in `toDictionary()` before sorting:
the four category/score pairs in declaration order. -/
def scoreDictionary (hentai neutral pornography sexy : ℚ) : List (String × ℚ) :=
  [("hentai", hentai), ("neutral", neutral), ("pornography", pornography), ("sexy", sexy)]

/-- The order of the source's sort comparator `(a, b) => b.value - a.value`:
`a` precedes `b` when `a.value ≥ b.value` (descending by score).  Scores are
modelled as rationals: only comparisons of the scores matter here. -/
def scoreGe (a b : String × ℚ) : Prop := b.2 ≤ a.2

instance : DecidableRel scoreGe := fun a b => inferInstanceAs (Decidable (b.2 ≤ a.2))

instance : IsTotal (String × ℚ) scoreGe := ⟨fun a b => le_total b.2 a.2⟩

instance : IsTrans (String × ℚ) scoreGe := ⟨fun _ _ _ h1 h2 => le_trans h2 h1⟩

/-- `toDictionary()` of the source: the four pairs sorted descending by
score (JavaScript `Array.prototype.sort` with comparator `b.value - a.value`;
insertion sort is a faithful model — only sortedness and permutation are
used). -/
def toDictionary (hentai neutral pornography sexy : ℚ) : List (String × ℚ) :=
  List.insertionSort scoreGe (scoreDictionary hentai neutral pornography sexy)

/-- The result object of nsfw-detector.mjs: the four scores plus the derived
`predictedLabel`.  `isNsfw` is a getter, modelled as a function below. -/
structure NsfwSpyResult where
  hentai : ℚ
  neutral : ℚ
  pornography : ℚ
  sexy : ℚ
  predictedLabel : String
deriving DecidableEq, Repr

/-- The constructor of `NsfwSpyResult`: fields copied from the score vector
(in the order hentai, neutral, pornography, sexy the source documents) and
`predictedLabel = this.toDictionary()[0].key`. -/
def NsfwSpyResult.make (hentai neutral pornography sexy : ℚ) : NsfwSpyResult :=
  { hentai := hentai
    neutral := neutral
    pornography := pornography
    sexy := sexy
    predictedLabel := (toDictionary hentai neutral pornography sexy).headI.1 }

/-- The `isNsfw` getter: `this.neutral < 0.5`. -/
def NsfwSpyResult.isNsfw (r : NsfwSpyResult) : Prop := r.neutral < 1 / 2

/-! ## The mutex registry (a JavaScript `Map`) and its get-or-create step -/

/-- JavaScript `Map.prototype.set`: replace the value under an existing key,
otherwise append the new entry.  Mutexes are identified by allocation
order (`Nat` ids). -/
def jsMapSet (m : List (String × Nat)) (k : String) (v : Nat) : List (String × Nat) :=
  match m.lookup k with
  | some _ => m.map (fun e => if e.1 = k then (k, v) else e)
  | none => m ++ [(k, v)]

/-- The net effect of the mutex get-or-create flow on the registry for a
SEQUENCE of requests (each completing before the next): a miss allocates a
fresh mutex and stores it, a hit reuses the stored one.  Nothing ever
removes an entry — index.mjs builds the registry as `new Map()` and neither
prediction-handler.mjs nor video-processor.mjs deletes from it. -/
def mutexRegistryAfter (keys : List String) : List (String × Nat) × Nat :=
  keys.foldl
    (fun s k =>
      match s.1.lookup k with
      | some _ => s
      | none => (jsMapSet s.1 k s.2, s.2 + 1))
    ([], 0)

/-! ## The mutex-creation race (prediction-handler.mjs lines 203-215)

The prologue of `processUrlForPrediction` is

    let mutex = mutexes.get(filename)
    if (!mutex) {
      const createMutex = async () => {
        const newMutex = new Mutex()
        mutexes.set(filename, newMutex)
        return newMutex
      }
      const memoizedCreateMutex = pMemoize(createMutex)
      mutex = await memoizedCreateMutex()
    }

`pMemoize` (p-memoize v7) is applied to a FRESH function on every call, so
its promise cache is never shared between two callers.  Its wrapper runs
`await cache.has(key)` before it invokes the wrapped function, so the body
of `createMutex` — including `mutexes.set` — runs in a later microtask than
the caller's synchronous segment.  Two calls started within one synchronous
segment (e.g. two requests racing for the same URL, the situation
url-processor.test.mjs constructs with two un-awaited promises) therefore
both execute the `mutexes.get` miss check before either `mutexes.set` runs.

The model splits each caller into two atomic steps:
  * `prologue` — the synchronous segment: `mutexes.get`, the `if (!mutex)`
    check, and the p-memoize wrapper up to its internal suspension point;
    on a hit the caller observes the stored mutex, on a miss its deferred
    creation continuation becomes pending;
  * `create`  — the deferred continuation: `new Mutex()` (a fresh id),
    `mutexes.set`, and the caller observes the fresh mutex.
After observing a mutex a caller `acquire`s it and, when that mutex is not
already held, enters the pipeline. -/

structure RaceState where
  reg : List (String × Nat)
  nextId : Nat
  obsA : Option Nat
  obsB : Option Nat
  pendA : Bool
  pendB : Bool
  heldLocks : List Nat
  inPipelineA : Bool
  inPipelineB : Bool
deriving DecidableEq, Repr

/-- Both callers start before any mutex exists for the fingerprint. -/
def initRace : RaceState :=
  { reg := [], nextId := 0, obsA := none, obsB := none, pendA := false, pendB := false
    heldLocks := [], inPipelineA := false, inPipelineB := false }

/-- The atomic steps of the two racing callers (see the comment above). -/
inductive RaceAct
  | prologueA
  | prologueB
  | createA
  | createB
  | acquireA
  | acquireB
deriving DecidableEq, Repr

/-- One atomic event-loop step of the race model. -/
def raceStep (k : String) (s : RaceState) : RaceAct → RaceState
  | .prologueA =>
    match s.reg.lookup k with
    | some m => { s with obsA := some m }
    | none => { s with pendA := true }
  | .prologueB =>
    match s.reg.lookup k with
    | some m => { s with obsB := some m }
    | none => { s with pendB := true }
  | .createA =>
    if s.pendA then
      { s with reg := jsMapSet s.reg k s.nextId, nextId := s.nextId + 1
               obsA := some s.nextId, pendA := false }
    else s
  | .createB =>
    if s.pendB then
      { s with reg := jsMapSet s.reg k s.nextId, nextId := s.nextId + 1
               obsB := some s.nextId, pendB := false }
    else s
  | .acquireA =>
    match s.obsA with
    | some m => if s.heldLocks.contains m then s
                else { s with heldLocks := m :: s.heldLocks, inPipelineA := true }
    | none => s
  | .acquireB =>
    match s.obsB with
    | some m => if s.heldLocks.contains m then s
                else { s with heldLocks := m :: s.heldLocks, inPipelineB := true }
    | none => s

/-- Run a schedule of atomic steps for fingerprint `k` from the empty
registry. -/
def runRace (k : String) (acts : List RaceAct) : RaceState :=
  acts.foldl (raceStep k) initRace

/-- The schedule two same-segment callers actually produce under the event
loop: both synchronous prologues run first (neither `mutexes.set` has
happened), then the two deferred creation continuations in queue order,
then both acquisitions. -/
def sameTickSchedule : List RaceAct :=
  [.prologueA, .prologueB, .createA, .createB, .acquireA, .acquireB]

/-! ## The tiered video acquisition

`TierEnv` holds the outcome each external primitive would produce for this
request: `.ok` with the produced value, or `.error` with the message of the
exception.  `tier3Screenshot` carries the `success` flag `generateScreenshot`
resolves with (the source checks `if (err || !success)`). -/

structure TierEnv where
  videoStream : Except String Unit
  screenshotFromStream : Except String Buf
  partBuffer : Except String Buf
  screenshotFromBuffer : Except String Buf
  tier3Download : Except String Unit
  tier3Screenshot : Except String Bool
  tier3ReadFile : Except String Buf
deriving Repr

/-- Successful acquisition: the screenshot buffer, the `downloadStatus.status`
string and the temp files recorded for cleanup. -/
structure TierOk where
  screenshotBuffer : Buf
  downloadStatus : String
  tempFilesCreated : List String
deriving DecidableEq, Repr

/-- The error value of `_getScreenshotBufferWithFallbacks`
(prediction-handler.mjs): returned as `[finalError, { tempFilesCreated }]`,
so the recorded temp files always accompany the error. -/
structure TierErr where
  message : String
  tempFilesCreated : List String
deriving DecidableEq, Repr

/-- The error thrown by `getScreenshotBufferWithFallbacks`
(video-processor.mjs): a JavaScript Error object whose `tempFilesCreated`
property may be absent (`none`). -/
structure VpErr where
  message : String
  tempFilesCreated : Option (List String)
deriving DecidableEq, Repr

/-- Node's `path.join(dir, name)` for the concrete shapes the source uses. -/
def pathJoin (dir name : String) : String :=
  if dir.endsWith "/" then dir ++ name else dir ++ "/" ++ name

/-- JavaScript `m || fallback` on a string `m`: the empty string is falsy. -/
def jsOrStr (m fallbackVal : String) : String := if m = "" then fallbackVal else m

/-- `a?.message || b?.message` where at least one error object exists
(`undefined` rendered by the template literal otherwise). -/
def jsOptOr (a b : Option String) : String :=
  match a with
  | some m => if m = "" then (match b with | some m2 => m2 | none => "undefined") else m
  | none => match b with | some m2 => m2 | none => "undefined"

/-- The message of an `Except` outcome, as `err?.message`. -/
def errMsg {α : Type} : Except String α → Option String
  | .error m => some m
  | .ok _ => none

/-- Stage prefix of the Tier-3 download failure. -/
def tier3DownloadFailedMsg : String := "[Tier 3] Final fallback download failed: "

/-- Stage prefix of the Tier-3 screenshot-generation failure. -/
def tier3GenFailedMsg : String := "[Tier 3] Final fallback screenshot generation from file failed: "

/-- Stage prefix of the Tier-3 screenshot-read failure. -/
def tier3ReadFailedMsg : String := "[Tier 3] Final fallback screenshot read failed: "

/-- The marker every Tier-3 stage message carries. -/
def tier3Prefix : String := "[Tier 3]"

/-- Temp-file name suffix of the Tier-3 video download. -/
def videoFallbackSuffix : String := "_video_fallback"

/-- Temp-file name suffix of the Tier-3 screenshot. -/
def screenshotFallbackSuffix : String := "_screenshot_fallback.jpg"

/-- Tier 3 of prediction-handler.mjs (lines 96-148): records both temp paths,
then download → screenshot → read, each failure returning the stage-named
error together with the recorded paths. -/
def phTier3 (e : TierEnv) (tempVideoFile tempScreenshotFile : String) :
    Except TierErr TierOk × List Ev :=
  match e.tier3Download with
  | .error m =>
    (.error { message := tier3DownloadFailedMsg ++ m
              tempFilesCreated := [tempVideoFile, tempScreenshotFile] },
     [.downloadPartFileEv tempVideoFile])
  | .ok _ =>
    match e.tier3Screenshot with
    | .error m =>
      (.error { message := tier3GenFailedMsg ++ jsOrStr m "Unknown error"
                tempFilesCreated := [tempVideoFile, tempScreenshotFile] },
       [.downloadPartFileEv tempVideoFile, .genScreenshotEv])
    | .ok false =>
      (.error { message := tier3GenFailedMsg ++ "Unknown error"
                tempFilesCreated := [tempVideoFile, tempScreenshotFile] },
       [.downloadPartFileEv tempVideoFile, .genScreenshotEv])
    | .ok true =>
      match e.tier3ReadFile with
      | .error m =>
        (.error { message := tier3ReadFailedMsg ++ m
                  tempFilesCreated := [tempVideoFile, tempScreenshotFile] },
         [.downloadPartFileEv tempVideoFile, .genScreenshotEv, .readShotEv])
      | .ok b =>
        (.ok { screenshotBuffer := b
               downloadStatus := "screenshot from temporary file (final fallback)"
               tempFilesCreated := [tempVideoFile, tempScreenshotFile] },
         [.downloadPartFileEv tempVideoFile, .genScreenshotEv, .readShotEv])

/-- Tier 2 of prediction-handler.mjs (lines 69-94): bounded in-memory buffer
download, then screenshot from the buffer; any failure falls through to
Tier 3. -/
def phTier2 (e : TierEnv) (tempVideoFile tempScreenshotFile : String) :
    Except TierErr TierOk × List Ev :=
  match e.partBuffer with
  | .error _ =>
    match phTier3 e tempVideoFile tempScreenshotFile with
    | (r, t) => (r, .downloadPartBufferEv :: t)
  | .ok _ =>
    match e.screenshotFromBuffer with
    | .ok b =>
      (.ok { screenshotBuffer := b
             downloadStatus := "screenshot from partial buffer (fallback)"
             tempFilesCreated := [] },
       [.downloadPartBufferEv, .genShotFromBufferEv])
    | .error _ =>
      match phTier3 e tempVideoFile tempScreenshotFile with
      | (r, t) => (r, .downloadPartBufferEv :: .genShotFromBufferEv :: t)

/-- `_getScreenshotBufferWithFallbacks` of prediction-handler.mjs: Tier 1
(streaming) first, then Tier 2, then Tier 3; Tier-1/2 failures only fall
through (they are logged as warnings), only Tier 3 produces the returned
error. -/
def phTier (e : TierEnv) (imgDownloadPath sha : String) : Except TierErr TierOk × List Ev :=
  match e.videoStream with
  | .error _ =>
    match phTier2 e (pathJoin imgDownloadPath (sha ++ videoFallbackSuffix))
        (pathJoin imgDownloadPath (sha ++ screenshotFallbackSuffix)) with
    | (r, t) => (r, .getVideoStreamEv :: t)
  | .ok _ =>
    match e.screenshotFromStream with
    | .ok b =>
      (.ok { screenshotBuffer := b, downloadStatus := "screenshot from stream"
             tempFilesCreated := [] },
       [.getVideoStreamEv, .genShotFromStreamEv])
    | .error _ =>
      match phTier2 e (pathJoin imgDownloadPath (sha ++ videoFallbackSuffix))
          (pathJoin imgDownloadPath (sha ++ screenshotFallbackSuffix)) with
      | (r, t) => (r, .getVideoStreamEv :: .genShotFromStreamEv :: t)

/-- The TypeError video-processor.mjs line 96 raises (see `vpTier`): a
module runs in strict mode, and assigning a property to the primitive number
`Array.prototype.push` returned throws. -/
def typeErrorOnPush : String :=
  "TypeError: Cannot create property on number 2"

/-- Tiers 2 and 3 of `getScreenshotBufferWithFallbacks` of
video-processor.mjs.  Tier 2 is as in `phTier2`.  Tier 3 differs from
`phTier3`: the source lacks a semicolon before the destructuring assignment,
so line 96 reads

    tempFilesCreated.push(tempVideoFile, tempScreenshotFile)[err] = await to(
      limit(() => downloadPartFile(...)))

`push` runs (recording both paths in the local array and returning the new
length, the primitive `2`), the download runs while `await to(...)`
evaluates, and then the property assignment on the primitive throws a
TypeError in module strict mode — REGARDLESS of the download's outcome.  The
`error.tempFilesCreated = tempFilesCreated` attachments on lines 111/124/133
and the rest of Tier 3 (lines 107-140) are unreachable, so the thrown error
carries no `tempFilesCreated` property. -/
def vpTier23 (e : TierEnv) (tempVideoFile : String) : Except VpErr TierOk × List Ev :=
  match e.partBuffer with
  | .ok _ =>
    match e.screenshotFromBuffer with
    | .ok b =>
      (.ok { screenshotBuffer := b
             downloadStatus := "screenshot from partial buffer (fallback)"
             tempFilesCreated := [] },
       [.downloadPartBufferEv, .genShotFromBufferEv])
    | .error _ =>
      (.error { message := typeErrorOnPush, tempFilesCreated := none },
       [.downloadPartBufferEv, .genShotFromBufferEv, .downloadPartFileEv tempVideoFile])
  | .error _ =>
    (.error { message := typeErrorOnPush, tempFilesCreated := none },
     [.downloadPartBufferEv, .downloadPartFileEv tempVideoFile])

/-- `getScreenshotBufferWithFallbacks` of video-processor.mjs: Tier 1
(streaming) first, then `vpTier23` (Tier 2 falling through to the broken
Tier 3). -/
def vpTier (e : TierEnv) (imgDownloadPath sha : String) : Except VpErr TierOk × List Ev :=
  match e.videoStream with
  | .ok _ =>
    match e.screenshotFromStream with
    | .ok b =>
      (.ok { screenshotBuffer := b, downloadStatus := "screenshot from stream"
             tempFilesCreated := [] },
       [.getVideoStreamEv, .genShotFromStreamEv])
    | .error _ =>
      match vpTier23 e (pathJoin imgDownloadPath (sha ++ videoFallbackSuffix)) with
      | (r, t) => (r, .getVideoStreamEv :: .genShotFromStreamEv :: t)
  | .error _ =>
    match vpTier23 e (pathJoin imgDownloadPath (sha ++ videoFallbackSuffix)) with
    | (r, t) => (r, .getVideoStreamEv :: t)

/-! ## The coordinators -/

/-- The cache key for URL requests: `'url' + '-' + filename` where
`filename = sha256(url)`. -/
def urlKey (sha : String) : String := "url" ++ "-" ++ sha

/-- The cache key for inline-data requests: `'data' + '-' + filename` where
`filename = sha256(base64_data)`. -/
def dataKey (sha : String) : String := "data" ++ "-" ++ sha

/-- Whether `needle` is an initial segment of `hay`. -/
def leadsWith : List Char → List Char → Bool
  | [], _ => true
  | _ :: _, [] => false
  | a :: as, b :: bs => a = b && leadsWith as bs

/-- Whether `needle` occurs contiguously inside `hay`. -/
def occursIn (needle : List Char) : List Char → Bool
  | [] => needle.isEmpty
  | c :: rest => leadsWith needle (c :: rest) || occursIn needle rest

/-- JavaScript `s.includes(pat)` (util.mjs `isContentTypeImageType` /
`isContentTypeVideoType` are `contentType.includes('image' / 'video')`). -/
def strIncludes (s pat : String) : Bool := occursIn pat.data s.data

/-- The optional content-type gate shared verbatim by prediction-handler.mjs
and video-processor.mjs: when enabled, a HEAD failure or a non-image /
non-video content type aborts the request. -/
def contentCheckStep (enable : Bool) (contentInfo : Except String String) (url : String) :
    Except String Unit × List Ev :=
  if enable then
    match contentInfo with
    | .error m =>
      (.error ("Failed to get content info for " ++ url ++ ": " ++ m), [.getContentInfoEv])
    | .ok ct =>
      if ¬ (strIncludes ct "image" = true) ∧ ¬ (strIncludes ct "video" = true) then
        (.error ("Only image/video URLs are acceptable for " ++ url), [.getContentInfoEv])
      else (.ok (), [.getContentInfoEv])
  else (.ok (), [])

/-- The environment of one `processUrlForPrediction` call
(prediction-handler.mjs): the request data, the flags of `config`, the
result-cache lookup, and the outcome of each external primitive the call may
invoke.  `sha` is the value `sha256(url)` computes (the hash itself is
external, js-sha256).  Config values that only parameterize the primitives
(FFMPEG_PATH, sizes, timeouts, user agent) do not alter control flow and are
omitted. -/
structure UrlEnv where
  url : String
  sha : String
  imgDownloadPath : String
  enableContentTypeCheck : Bool
  enableBufferProcessing : Bool
  resultCacheGet : String → Option Pred
  contentInfo : Except String String
  tier : TierEnv
  downloadToBuffer : Except String Buf
  fileVideoDownload : Except String Unit
  fileVideoScreenshot : Except String Unit
  fileMove : Except String Unit
  fileImageDownload : Except String Unit
  processImageData : Except String Buf
  processImageFile : Except String Unit
  classifyFromByteArray : Except String Pred
  classifyImageFile : Except String Pred
  deleteFileRes : String → Except String Bool

/-- What one coordinator call leaves behind: its returned value or thrown
error, the full event trace, and the state of the `tempFilesCreated`
tracking array when the cleanup phase ran. -/
structure RunOutcome where
  result : Except String Pred
  trace : List Ev
  tempFilesTracked : List String
deriving Repr

/-- `deleteFile` of the cleanup loops: the deletion attempt, and the warning
the source logs when deletion fails — the failure is never escalated. -/
def deleteSeq (deleteRes : String → Except String Bool) (p : String) : List Ev :=
  .deleteAttemptEv p :: (match deleteRes p with | .error _ => [.deleteWarnEv p] | .ok _ => [])

/-- `cleanupTemporaryFile(filename, IMG_DOWNLOAD_PATH)` of util.mjs: best
effort deletion of the three well-known temp paths. -/
def cleanupTrail (env : UrlEnv) : List Ev :=
  ([env.imgDownloadPath ++ env.sha ++ "_" ++ "image",
    env.imgDownloadPath ++ env.sha ++ "_" ++ "video",
    env.imgDownloadPath ++ env.sha ++ "_" ++ "final"]).flatMap (deleteSeq env.deleteFileRes)

/-- The `finally` block of prediction-handler.mjs `processUrlForPrediction`
(lines 422-439): release the mutex, attempt deletion of every tracked temp
file (warning on failure), and in the file-based mode additionally run
`cleanupTemporaryFile`. -/
def phFinallyTrace (env : UrlEnv) (tempFiles : List String) : List Ev :=
  .releaseEv :: (tempFiles.flatMap (deleteSeq env.deleteFileRes)
    ++ (if env.enableBufferProcessing then [] else cleanupTrail env))

/-- Buffer path, steps after acquisition (prediction-handler.mjs lines
313-334): `processImageData`, then `classifyImageFromByteArray`, then the
cache insertion. -/
def phAfterBufferAcquire (env : UrlEnv) (t : List Ev) (tempFiles : List String) :
    Except String Pred × List Ev × List String :=
  match env.processImageData with
  | .error m =>
    (.error ("Image processing failed for " ++ env.url ++ ": " ++ m),
     t ++ [.processImageDataEv], tempFiles)
  | .ok _ =>
    match env.classifyFromByteArray with
    | .error m =>
      (.error ("Classification failed for " ++ env.url ++ ": " ++ m),
       t ++ [.processImageDataEv, .classifyBufferEv], tempFiles)
    | .ok r =>
      (.ok r, t ++ [.processImageDataEv, .classifyBufferEv, .cacheSetEv (urlKey env.sha)],
       tempFiles)

/-- File path, steps after acquisition (prediction-handler.mjs lines
390-416): `processImageFile`, then `classifyImageFile`, then the cache
insertion.  This path tracks no temp files (cleanup is the blanket
`cleanupTemporaryFile` in the `finally`). -/
def phAfterFileAcquire (env : UrlEnv) (t : List Ev) :
    Except String Pred × List Ev × List String :=
  match env.processImageFile with
  | .error m => (.error ("Image processing failed: " ++ m), t ++ [.processImageFileEv], [])
  | .ok _ =>
    match env.classifyImageFile with
    | .error m =>
      (.error ("Classification failed: " ++ m), t ++ [.processImageFileEv, .classifyFileEv], [])
    | .ok r =>
      (.ok r, t ++ [.processImageFileEv, .classifyFileEv, .cacheSetEv (urlKey env.sha)], [])

/-- The `try` block of prediction-handler.mjs `processUrlForPrediction`
(lines 236-418): content-type gate, acquisition (tiered video / direct image,
in buffer or file mode), processing, classification, cache insertion.  The
third component is the `tempFilesCreated` array at exit. -/
def phBody (env : UrlEnv) : Except String Pred × List Ev × List String :=
  match contentCheckStep env.enableContentTypeCheck env.contentInfo env.url with
  | (.error m, t0) => (.error m, t0, [])
  | (.ok _, t0) =>
    if env.enableBufferProcessing then
      if getUrlType env.url = "video" then
        match phTier env.tier env.imgDownloadPath env.sha with
        | (.error e2, t) => (.error e2.message, t0 ++ t, e2.tempFilesCreated)
        | (.ok okv, t) => phAfterBufferAcquire env (t0 ++ t) okv.tempFilesCreated
      else
        match env.downloadToBuffer with
        | .error m =>
          (.error ("Download failed for " ++ env.url ++ ": " ++ m),
           t0 ++ [.downloadFileToBufferEv], [])
        | .ok _ => phAfterBufferAcquire env (t0 ++ [.downloadFileToBufferEv]) []
    else
      if getUrlType env.url = "video" then
        match env.fileVideoDownload with
        | .error m =>
          (.error ("Video download failed: " ++ m),
           t0 ++ [.downloadPartFileEv (env.imgDownloadPath ++ env.sha ++ "_video")], [])
        | .ok _ =>
          match env.fileVideoScreenshot, env.fileMove with
          | .ok _, .ok _ =>
            phAfterFileAcquire env
              (t0 ++ [.downloadPartFileEv (env.imgDownloadPath ++ env.sha ++ "_video"),
                      .genScreenshotEv, .moveFileEv])
          | sh, mv =>
            (.error ("Screenshot generation or move failed: " ++ jsOptOr (errMsg sh) (errMsg mv)),
             t0 ++ [.downloadPartFileEv (env.imgDownloadPath ++ env.sha ++ "_video"),
                    .genScreenshotEv, .moveFileEv], [])
      else
        match env.fileImageDownload with
        | .error m =>
          (.error ("Image download failed: " ++ m),
           t0 ++ [.downloadFileEv (env.imgDownloadPath ++ env.sha ++ "_" ++ "image")], [])
        | .ok _ =>
          phAfterFileAcquire env
            (t0 ++ [.downloadFileEv (env.imgDownloadPath ++ env.sha ++ "_" ++ "image")])

/-- `processUrlForPrediction` of prediction-handler.mjs: acquire the keyed
mutex, re-check the result cache (a hit releases and returns the cached
value untouched), otherwise run the `try` body and unconditionally the
`finally` cleanup.  The `catch` only logs and rethrows, leaving the result
unchanged. -/
def processUrlForPrediction (env : UrlEnv) : RunOutcome :=
  match env.resultCacheGet (urlKey env.sha) with
  | some c => { result := .ok c, trace := [.releaseEv], tempFilesTracked := [] }
  | none =>
    match phBody env with
    | (r, t, tempFiles) =>
      { result := r, trace := t ++ phFinallyTrace env tempFiles, tempFilesTracked := tempFiles }

/-! ## image-prediction-pipeline.mjs and the refactored coordinators -/

/-- The external outcomes `runImagePredictionPipeline` consumes. -/
structure PipeEnv where
  processImageData : Except String Buf
  processImageFile : Except String Unit
  classifyFromByteArray : Except String Pred
  classifyImageFile : Except String Pred
  deleteFileRes : String → Except String Bool

/-- `runImagePredictionPipeline` of image-prediction-pipeline.mjs: process
then classify (buffer or file flavour), with a `finally` that, in file mode,
best-effort deletes the `_final` processed file. -/
def runImagePredictionPipeline (p : PipeEnv) (enableBuffer : Bool) (imgDownloadPath fn : String) :
    Except String Pred × List Ev :=
  if enableBuffer then
    match p.processImageData with
    | .error m => (.error ("Image processing failed: " ++ m), [.processImageDataEv])
    | .ok _ =>
      match p.classifyFromByteArray with
      | .error m =>
        (.error ("Classification failed: " ++ m), [.processImageDataEv, .classifyBufferEv])
      | .ok r => (.ok r, [.processImageDataEv, .classifyBufferEv])
  else
    match p.processImageFile with
    | .error m =>
      (.error ("Image processing failed: " ++ m),
       .processImageFileEv :: deleteSeq p.deleteFileRes (imgDownloadPath ++ fn ++ "_final"))
    | .ok _ =>
      match p.classifyImageFile with
      | .error m =>
        (.error ("Classification failed: " ++ m),
         [.processImageFileEv, .classifyFileEv]
           ++ deleteSeq p.deleteFileRes (imgDownloadPath ++ fn ++ "_final"))
      | .ok r =>
        (.ok r,
         [.processImageFileEv, .classifyFileEv]
           ++ deleteSeq p.deleteFileRes (imgDownloadPath ++ fn ++ "_final"))

/-- The environment of one video-processor.mjs `processUrlForPrediction`
call.  As `UrlEnv`, but processing and classification go through the shared
pipeline (`pipe`). -/
structure VpEnv where
  url : String
  sha : String
  imgDownloadPath : String
  enableContentTypeCheck : Bool
  enableBufferProcessing : Bool
  resultCacheGet : String → Option Pred
  contentInfo : Except String String
  tier : TierEnv
  downloadToBuffer : Except String Buf
  fileVideoDownload : Except String Unit
  fileVideoScreenshot : Except String Unit
  fileMove : Except String Unit
  fileImageDownload : Except String Unit
  pipe : PipeEnv
  deleteFileRes : String → Except String Bool

/-- The pipeline call and cache insertion shared by every acquisition branch
of video-processor.mjs (lines 388-405). -/
def vpAfterAcquire (env : VpEnv) (t : List Ev) (tempFiles : List String) :
    Except String Pred × List Ev × List String :=
  match runImagePredictionPipeline env.pipe env.enableBufferProcessing env.imgDownloadPath env.sha with
  | (.error m, pt) => (.error m, t ++ pt, tempFiles)
  | (.ok r, pt) => (.ok r, t ++ pt ++ [.cacheSetEv (urlKey env.sha)], tempFiles)

/-- The `try` block of video-processor.mjs `processUrlForPrediction` (lines
252-405).  The video/buffer branch catches the tier error and pushes
`err.tempFilesCreated` when that property is present (`?.length`); the
file-mode branches track the downloaded artifacts themselves. -/
def vpBody (env : VpEnv) : Except String Pred × List Ev × List String :=
  match contentCheckStep env.enableContentTypeCheck env.contentInfo env.url with
  | (.error m, t0) => (.error m, t0, [])
  | (.ok _, t0) =>
    if env.enableBufferProcessing then
      if getUrlType env.url = "video" then
        match vpTier env.tier env.imgDownloadPath env.sha with
        | (.error e2, t) =>
          (.error e2.message, t0 ++ t,
           match e2.tempFilesCreated with | some l => l | none => [])
        | (.ok okv, t) => vpAfterAcquire env (t0 ++ t) okv.tempFilesCreated
      else
        match env.downloadToBuffer with
        | .error m =>
          (.error ("Download failed for " ++ env.url ++ ": " ++ m),
           t0 ++ [.downloadFileToBufferEv], [])
        | .ok _ => vpAfterAcquire env (t0 ++ [.downloadFileToBufferEv]) []
    else
      if getUrlType env.url = "video" then
        match env.fileVideoDownload with
        | .error m =>
          (.error ("Video download failed: " ++ m),
           t0 ++ [.downloadPartFileEv (env.imgDownloadPath ++ env.sha ++ "_video")], [])
        | .ok _ =>
          match env.fileVideoScreenshot, env.fileMove with
          | .ok _, .ok _ =>
            vpAfterAcquire env
              (t0 ++ [.downloadPartFileEv (env.imgDownloadPath ++ env.sha ++ "_video"),
                      .genScreenshotEv, .moveFileEv])
              [env.imgDownloadPath ++ env.sha ++ "_video",
               env.imgDownloadPath ++ env.sha ++ "_" ++ "image"]
          | sh, mv =>
            (.error ("Screenshot generation or move failed: " ++ jsOptOr (errMsg sh) (errMsg mv)),
             t0 ++ [.downloadPartFileEv (env.imgDownloadPath ++ env.sha ++ "_video"),
                    .genScreenshotEv, .moveFileEv],
             [env.imgDownloadPath ++ env.sha ++ "_video"])
      else
        match env.fileImageDownload with
        | .error m =>
          (.error ("Image download failed: " ++ m),
           t0 ++ [.downloadFileEv (env.imgDownloadPath ++ env.sha ++ "_" ++ "image")], [])
        | .ok _ =>
          vpAfterAcquire env
            (t0 ++ [.downloadFileEv (env.imgDownloadPath ++ env.sha ++ "_" ++ "image")])
            [env.imgDownloadPath ++ env.sha ++ "_" ++ "image"]

/-- The `finally` block of video-processor.mjs `processUrlForPrediction`
(lines 409-422): release the mutex and attempt deletion of every tracked
temp file (warning on failure); the pipeline already cleaned its own
processed file. -/
def vpFinallyTrace (env : VpEnv) (tempFiles : List String) : List Ev :=
  .releaseEv :: tempFiles.flatMap (deleteSeq env.deleteFileRes)

/-- `processUrlForPrediction` of video-processor.mjs: keyed mutex via the
module-level memoized `getOrCreateMutex`, cache re-check, `try` body,
unconditional `finally`. -/
def vpProcessUrlForPrediction (env : VpEnv) : RunOutcome :=
  match env.resultCacheGet (urlKey env.sha) with
  | some c => { result := .ok c, trace := [.releaseEv], tempFilesTracked := [] }
  | none =>
    match vpBody env with
    | (r, t, tempFiles) =>
      { result := r, trace := t ++ vpFinallyTrace env tempFiles, tempFilesTracked := tempFiles }

/-- The environment of one `processDataForPrediction` call
(data-processor.mjs).  `sha` is `sha256(base64_data)`. -/
structure DataEnv where
  sha : String
  imgDownloadPath : String
  enableBufferProcessing : Bool
  resultCacheGet : String → Option Pred
  writeFile : Except String Unit
  pipe : PipeEnv
  deleteFileRes : String → Except String Bool

/-- The file-mode prologue of data-processor.mjs: persist the decoded buffer
to `_image` before handing the path to the pipeline. -/
def dataWriteStep (env : DataEnv) : Except String Unit × List Ev :=
  if env.enableBufferProcessing then (.ok (), [])
  else
    match env.writeFile with
    | .error m =>
      (.error ("Failed to write image file: " ++ m),
       [.writeFileEv (env.imgDownloadPath ++ env.sha ++ "_image")])
    | .ok _ => (.ok (), [.writeFileEv (env.imgDownloadPath ++ env.sha ++ "_image")])

/-- The `try` block of data-processor.mjs (lines 36-64): in file mode first
persist the buffer, then run the shared pipeline, then insert into the
cache. -/
def dataBody (env : DataEnv) : Except String Pred × List Ev :=
  match dataWriteStep env with
  | (.error m, t) => (.error m, t)
  | (.ok _, t) =>
    match runImagePredictionPipeline env.pipe env.enableBufferProcessing env.imgDownloadPath env.sha with
    | (.error m, pt) => (.error m, t ++ pt)
    | (.ok r, pt) => (.ok r, t ++ pt ++ [.cacheSetEv (dataKey env.sha)])

/-- The `finally` block of data-processor.mjs (lines 68-79): in file mode
best-effort delete the `_image` temp file. -/
def dataFinallyTrace (env : DataEnv) : List Ev :=
  if env.enableBufferProcessing then []
  else deleteSeq env.deleteFileRes (env.imgDownloadPath ++ env.sha ++ "_image")

/-- `processDataForPrediction` of data-processor.mjs: cache check first (no
keyed lock on this path), then the `try` body and the unconditional
`finally`. -/
def processDataForPrediction (env : DataEnv) : RunOutcome :=
  match env.resultCacheGet (dataKey env.sha) with
  | some c => { result := .ok c, trace := [], tempFilesTracked := [] }
  | none =>
    match dataBody env with
    | (r, t) => { result := r, trace := t ++ dataFinallyTrace env, tempFilesTracked := [] }

/-! ## Event classes and the error taxonomy -/

/-- Events the tiered video acquisition can emit. -/
def isTierEv : Ev → Bool
  | .getVideoStreamEv | .genShotFromStreamEv | .downloadPartBufferEv
  | .genShotFromBufferEv | .genScreenshotEv | .readShotEv => true
  | .downloadPartFileEv _ => true
  | _ => false

/-- Events `runImagePredictionPipeline` can emit (its own `finally` deletes
the processed file in file mode). -/
def isPipeEv : Ev → Bool
  | .processImageDataEv | .processImageFileEv | .classifyBufferEv | .classifyFileEv => true
  | .deleteAttemptEv _ => true
  | .deleteWarnEv _ => true
  | _ => false

/-- The stage-named error messages `processUrlForPrediction`
(prediction-handler.mjs) can propagate: each failure mode produces its own
template naming the failing stage, with the underlying cause appended. -/
def namesUrlStage (url e : String) : Prop :=
  (∃ c, e = "Failed to get content info for " ++ url ++ ": " ++ c)
  ∨ (e = "Only image/video URLs are acceptable for " ++ url)
  ∨ (∃ c, e = tier3DownloadFailedMsg ++ c)
  ∨ (∃ c, e = tier3GenFailedMsg ++ c)
  ∨ (∃ c, e = tier3ReadFailedMsg ++ c)
  ∨ (∃ c, e = "Download failed for " ++ url ++ ": " ++ c)
  ∨ (∃ c, e = "Image processing failed for " ++ url ++ ": " ++ c)
  ∨ (∃ c, e = "Classification failed for " ++ url ++ ": " ++ c)
  ∨ (∃ c, e = "Video download failed: " ++ c)
  ∨ (∃ c, e = "Screenshot generation or move failed: " ++ c)
  ∨ (∃ c, e = "Image download failed: " ++ c)
  ∨ (∃ c, e = "Image processing failed: " ++ c)
  ∨ (∃ c, e = "Classification failed: " ++ c)

/-- The stage-named error messages `processDataForPrediction`
(data-processor.mjs with the shared pipeline) can propagate. -/
def namesDataStage (e : String) : Prop :=
  (∃ c, e = "Failed to write image file: " ++ c)
  ∨ (∃ c, e = "Image processing failed: " ++ c)
  ∨ (∃ c, e = "Classification failed: " ++ c)

/-! ## Concrete inputs used by the closed bug-witnessing theorems -/

/-- The download directory of the concrete runs. -/
def tmpDir : String := "/tmp/nsfw/"

/-- A concrete fingerprint (the sha256 value of the request). -/
def shaF : String := "f1e2"

/-- All three tiers fail: streaming fails, the partial-buffer download
fails, the Tier-3 download fails (the inputs of the test "should throw an
error if all three video processing tiers fail"). -/
def allTiersFailEnv : TierEnv :=
  { videoStream := .error "Streaming failed"
    screenshotFromStream := .error "unused"
    partBuffer := .error "Partial buffer download failed"
    screenshotFromBuffer := .error "unused"
    tier3Download := .error "File download failed"
    tier3Screenshot := .ok true
    tier3ReadFile := .ok 0 }

/-- Tier 1 succeeds outright. -/
def tier1OkEnv : TierEnv :=
  { videoStream := .ok ()
    screenshotFromStream := .ok 3
    partBuffer := .error "never reached"
    screenshotFromBuffer := .error "never reached"
    tier3Download := .error "never reached"
    tier3Screenshot := .error "never reached"
    tier3ReadFile := .error "never reached" }

/-- Tier 1 fails, Tier 2 succeeds. -/
def tier2OkEnv : TierEnv :=
  { videoStream := .error "Streaming failed"
    screenshotFromStream := .error "unused"
    partBuffer := .ok 4
    screenshotFromBuffer := .ok 5
    tier3Download := .error "never reached"
    tier3Screenshot := .error "never reached"
    tier3ReadFile := .error "never reached" }

/-- A pipeline whose stages all succeed (classification result id 7). -/
def okPipe : PipeEnv :=
  { processImageData := .ok 1
    processImageFile := .ok ()
    classifyFromByteArray := .ok 7
    classifyImageFile := .ok 7
    deleteFileRes := fun _ => .ok true }

/-- The Tier-3 video temp path of the concrete runs. -/
def fallbackVideoPath : String := pathJoin tmpDir (shaF ++ videoFallbackSuffix)

/-- The Tier-3 screenshot temp path of the concrete runs. -/
def fallbackShotPath : String := pathJoin tmpDir (shaF ++ screenshotFallbackSuffix)

/-- A video-URL request through video-processor.mjs in buffer mode whose
three acquisition tiers all fail. -/
def c6VpEnv : VpEnv :=
  { url := "http://host/v.mp4"
    sha := shaF
    imgDownloadPath := tmpDir
    enableContentTypeCheck := false
    enableBufferProcessing := true
    resultCacheGet := fun _ => none
    contentInfo := .ok "video/mp4"
    tier := allTiersFailEnv
    downloadToBuffer := .ok 0
    fileVideoDownload := .ok ()
    fileVideoScreenshot := .ok ()
    fileMove := .ok ()
    fileImageDownload := .ok ()
    pipe := okPipe
    deleteFileRes := fun _ => .ok true }

/-- The same request through prediction-handler.mjs (the variant whose
Tier 3 hands its temp files back). -/
def c6PhEnv : UrlEnv :=
  { url := "http://host/v.mp4"
    sha := shaF
    imgDownloadPath := tmpDir
    enableContentTypeCheck := false
    enableBufferProcessing := true
    resultCacheGet := fun _ => none
    contentInfo := .ok "video/mp4"
    tier := allTiersFailEnv
    downloadToBuffer := .ok 0
    fileVideoDownload := .ok ()
    fileVideoScreenshot := .ok ()
    fileMove := .ok ()
    fileImageDownload := .ok ()
    processImageData := .ok 1
    processImageFile := .ok ()
    classifyFromByteArray := .ok 7
    classifyImageFile := .ok 7
    deleteFileRes := fun _ => .ok true }

/-- An image-URL request whose fingerprint is already cached (result id 5). -/
def cachedUrlEnv : UrlEnv :=
  { c6PhEnv with
    url := "http://host/a.jpg"
    contentInfo := .ok "image/jpeg"
    resultCacheGet := fun k => if k = urlKey shaF then some 5 else none }

/-- An inline-data request whose fingerprint is already cached (result id 6). -/
def cachedDataEnv : DataEnv :=
  { sha := shaF
    imgDownloadPath := tmpDir
    enableBufferProcessing := true
    resultCacheGet := fun k => if k = dataKey shaF then some 6 else none
    writeFile := .ok ()
    pipe := okPipe
    deleteFileRes := fun _ => .ok true }

/-- The MUTEX_CACHE_MAX_ITEM_NUM value configured for the bounded-growth
check (the environment variable is free to be 1). -/
def mutexCacheMaxConfigured : Nat := 1

/-- Events the `try` body of the coordinators can emit, relative to the
cache key `k` of the request: everything except a mutex release, a deletion
of an untracked path outside the pipeline's own `_final` cleanup, and a
cache insertion under any other key. -/
def isBodyEv (k : String) : Ev → Bool
  | .releaseEv => false
  | .cacheSetEv k2 => k2 = k
  | _ => true

/-- The cleanup phase emits the release, the tracked deletions (with their
warnings) and, for prediction-handler.mjs in file mode, the blanket cleanup
— and nothing else. -/
def isCleanupEv : Ev → Bool
  | .releaseEv => true
  | .deleteAttemptEv _ => true
  | .deleteWarnEv _ => true
  | _ => false

/-- Everything except a mutex release. -/
def notReleaseB : Ev → Bool
  | .releaseEv => false
  | _ => true

/-- Everything except a result-cache insertion. -/
def noCacheSetB : Ev → Bool
  | .cacheSetEv _ => false
  | _ => true

/-- Everything except the Tier-1 streaming download call. -/
def notStreamB : Ev → Bool
  | .getVideoStreamEv => false
  | _ => true

/-- Everything except the direct image download into a buffer. -/
def notDfbB : Ev → Bool
  | .downloadFileToBufferEv => false
  | _ => true


/-! ## Trace-classification lemmas -/

theorem mem_deleteSeq {d : String → Except String Bool} {p : String} {ev : Ev}
    (h : ev ∈ deleteSeq d p) : ev = .deleteAttemptEv p ∨ ev = .deleteWarnEv p := by
  unfold deleteSeq at h
  rcases List.mem_cons.mp h with h | h
  · exact Or.inl h
  · revert h
    split <;> simp_all

theorem mem_flatMap_deleteSeq {d : String → Except String Bool} {fs : List String} {ev : Ev}
    (h : ev ∈ fs.flatMap (deleteSeq d)) :
    ∃ p ∈ fs, ev = .deleteAttemptEv p ∨ ev = .deleteWarnEv p := by
  rcases List.mem_flatMap.mp h with ⟨p, hp, hin⟩
  exact ⟨p, hp, mem_deleteSeq hin⟩

theorem deleteAttempt_mem_flatMap {d : String → Except String Bool} {fs : List String}
    {p : String} (hp : p ∈ fs) : Ev.deleteAttemptEv p ∈ fs.flatMap (deleteSeq d) :=
  List.mem_flatMap.mpr ⟨p, hp, by unfold deleteSeq; exact List.mem_cons_self _ _⟩

theorem mem_contentCheck {b : Bool} {ci : Except String String} {u : String} {ev : Ev}
    (h : ev ∈ (contentCheckStep b ci u).2) : ev = .getContentInfoEv := by
  unfold contentCheckStep at h
  split at h
  · split at h <;> simp_all
    split at h <;> simp_all
  · simp_all

theorem all_weaken {p q : Ev → Bool} (himp : ∀ ev, p ev = true → q ev = true) :
    ∀ {l : List Ev}, l.all p = true → l.all q = true := by
  intro l h
  rw [List.all_eq_true] at h ⊢
  exact fun ev hev => himp ev (h ev hev)

theorem mem_of_all {p : Ev → Bool} {l : List Ev} (hall : l.all p = true) {ev : Ev}
    (h : ev ∈ l) : p ev = true := List.all_eq_true.mp hall ev h

theorem deleteSeq_all {d : String → Except String Bool} {q : String} {p : Ev → Bool}
    (h1 : p (.deleteAttemptEv q) = true) (h2 : p (.deleteWarnEv q) = true) :
    (deleteSeq d q).all p = true := by
  unfold deleteSeq
  split <;> simp [h1, h2]

theorem flatMap_deleteSeq_all {d : String → Except String Bool} {fs : List String}
    {p : Ev → Bool} (h1 : ∀ q, p (.deleteAttemptEv q) = true)
    (h2 : ∀ q, p (.deleteWarnEv q) = true) :
    (fs.flatMap (deleteSeq d)).all p = true := by
  rw [List.all_eq_true]
  intro ev hev
  rcases mem_flatMap_deleteSeq hev with ⟨q, _, h | h⟩ <;> subst h <;> [exact h1 q; exact h2 q]

theorem phTier3_all (e : TierEnv) (tv ts : String) :
    ((phTier3 e tv ts).2).all isTierEv = true := by
  unfold phTier3
  repeat' split
  all_goals rfl

theorem phTier2_all (e : TierEnv) (tv ts : String) :
    ((phTier2 e tv ts).2).all isTierEv = true := by
  unfold phTier2
  repeat' split
  all_goals try rfl
  all_goals simp only [List.all_cons, isTierEv, Bool.true_and]
  all_goals rename_i heq
  all_goals have h3 := phTier3_all e tv ts
  all_goals rw [heq] at h3
  all_goals exact h3

theorem phTier_all (e : TierEnv) (ip s : String) :
    ((phTier e ip s).2).all isTierEv = true := by
  unfold phTier
  repeat' split
  all_goals try rfl
  all_goals simp only [List.all_cons, isTierEv, Bool.true_and]
  all_goals rename_i heq
  all_goals have h2 := phTier2_all e (pathJoin ip (s ++ videoFallbackSuffix)) (pathJoin ip (s ++ screenshotFallbackSuffix))
  all_goals rw [heq] at h2
  all_goals exact h2

theorem vpTier23_all (e : TierEnv) (tv : String) :
    ((vpTier23 e tv).2).all isTierEv = true := by
  unfold vpTier23
  repeat' split
  all_goals rfl

theorem vpTier_all (e : TierEnv) (ip s : String) :
    ((vpTier e ip s).2).all isTierEv = true := by
  unfold vpTier
  repeat' split
  all_goals try rfl
  all_goals simp only [List.all_cons, isTierEv, Bool.true_and]
  all_goals rename_i heq
  all_goals have h2 := vpTier23_all e (pathJoin ip (s ++ videoFallbackSuffix))
  all_goals rw [heq] at h2
  all_goals exact h2

theorem pipeline_all (p : PipeEnv) (eb : Bool) (ip fn : String) :
    ((runImagePredictionPipeline p eb ip fn).2).all isPipeEv = true := by
  unfold runImagePredictionPipeline
  repeat' split
  all_goals simp only [List.all_cons, List.all_append, List.all_nil, isPipeEv,
    Bool.true_and, Bool.and_true]
  all_goals exact deleteSeq_all rfl rfl

theorem contentCheck_all (b : Bool) (ci : Except String String) (u : String)
    {p : Ev → Bool} (h : p .getContentInfoEv = true) :
    ((contentCheckStep b ci u).2).all p = true := by
  unfold contentCheckStep
  repeat' split
  all_goals simp [h]

theorem tier_imp_body (k : String) : ∀ ev, isTierEv ev = true → isBodyEv k ev = true := by
  intro ev h
  cases ev <;> simp_all [isTierEv, isBodyEv]

theorem pipe_imp_body (k : String) : ∀ ev, isPipeEv ev = true → isBodyEv k ev = true := by
  intro ev h
  cases ev <;> simp_all [isPipeEv, isBodyEv]

theorem phAfterBufferAcquire_all (env : UrlEnv) (t : List Ev) (fs : List String)
    (ht : t.all (isBodyEv (urlKey env.sha)) = true) :
    ((phAfterBufferAcquire env t fs).2.1).all (isBodyEv (urlKey env.sha)) = true := by
  unfold phAfterBufferAcquire
  repeat' split
  all_goals simp [List.all_append, ht, isBodyEv]

theorem phAfterFileAcquire_all (env : UrlEnv) (t : List Ev)
    (ht : t.all (isBodyEv (urlKey env.sha)) = true) :
    ((phAfterFileAcquire env t).2.1).all (isBodyEv (urlKey env.sha)) = true := by
  unfold phAfterFileAcquire
  repeat' split
  all_goals simp [List.all_append, ht, isBodyEv]

theorem vpAfterAcquire_all (env : VpEnv) (t : List Ev) (fs : List String)
    (ht : t.all (isBodyEv (urlKey env.sha)) = true) :
    ((vpAfterAcquire env t fs).2.1).all (isBodyEv (urlKey env.sha)) = true := by
  unfold vpAfterAcquire
  repeat' split
  all_goals rename_i heq
  all_goals have hp := all_weaken (pipe_imp_body (urlKey env.sha)) (pipeline_all env.pipe env.enableBufferProcessing env.imgDownloadPath env.sha)
  all_goals rw [heq] at hp
  all_goals simp [List.all_append, ht, hp, isBodyEv]

theorem phBody_all (env : UrlEnv) :
    ((phBody env).2.1).all (isBodyEv (urlKey env.sha)) = true := by
  unfold phBody
  rcases hcc : contentCheckStep env.enableContentTypeCheck env.contentInfo env.url with ⟨c0, t0⟩
  have ht0 : t0.all (isBodyEv (urlKey env.sha)) = true := by
    have h := contentCheck_all env.enableContentTypeCheck env.contentInfo env.url
      (p := isBodyEv (urlKey env.sha)) rfl
    rw [hcc] at h
    exact h
  cases c0 with
  | error m => simpa using ht0
  | ok u0 =>
    by_cases hb : env.enableBufferProcessing = true
    all_goals simp only [hb, if_true, if_false, Bool.false_eq_true, ite_true, ite_false]
    · by_cases hv : getUrlType env.url = "video"
      all_goals simp only [hv, if_true, if_false, ite_true, ite_false]
      · rcases htier : phTier env.tier env.imgDownloadPath env.sha with ⟨rt, tt⟩
        have htt : tt.all (isBodyEv (urlKey env.sha)) = true := by
          have h := all_weaken (tier_imp_body (urlKey env.sha))
            (phTier_all env.tier env.imgDownloadPath env.sha)
          rw [htier] at h
          exact h
        cases rt with
        | error e2 => simp [List.all_append, ht0, htt]
        | ok okv =>
          exact phAfterBufferAcquire_all env _ _ (by simp [List.all_append, ht0, htt])
      · cases hd : env.downloadToBuffer with
        | error m => simp [List.all_append, ht0, isBodyEv]
        | ok b =>
          exact phAfterBufferAcquire_all env _ _
            (by simp [List.all_append, ht0, isBodyEv])
    · by_cases hv : getUrlType env.url = "video"
      all_goals simp only [hv, if_true, if_false, ite_true, ite_false]
      · cases hd : env.fileVideoDownload with
        | error m => simp [List.all_append, ht0, isBodyEv]
        | ok u1 =>
          cases hs : env.fileVideoScreenshot with
          | ok u2 =>
            cases hm : env.fileMove with
            | ok u3 =>
              exact phAfterFileAcquire_all env _ (by simp [List.all_append, ht0, isBodyEv])
            | error m2 => simp [List.all_append, ht0, isBodyEv]
          | error m2 =>
            cases hm : env.fileMove with
            | ok u3 => simp [List.all_append, ht0, isBodyEv]
            | error m3 => simp [List.all_append, ht0, isBodyEv]
      · cases hd : env.fileImageDownload with
        | error m => simp [List.all_append, ht0, isBodyEv]
        | ok u1 =>
          exact phAfterFileAcquire_all env _ (by simp [List.all_append, ht0, isBodyEv])

theorem vpBody_all (env : VpEnv) :
    ((vpBody env).2.1).all (isBodyEv (urlKey env.sha)) = true := by
  unfold vpBody
  rcases hcc : contentCheckStep env.enableContentTypeCheck env.contentInfo env.url with ⟨c0, t0⟩
  have ht0 : t0.all (isBodyEv (urlKey env.sha)) = true := by
    have h := contentCheck_all env.enableContentTypeCheck env.contentInfo env.url
      (p := isBodyEv (urlKey env.sha)) rfl
    rw [hcc] at h
    exact h
  cases c0 with
  | error m => simpa using ht0
  | ok u0 =>
    by_cases hb : env.enableBufferProcessing = true
    all_goals simp only [hb, if_true, if_false, Bool.false_eq_true, ite_true, ite_false]
    · by_cases hv : getUrlType env.url = "video"
      all_goals simp only [hv, if_true, if_false, ite_true, ite_false]
      · rcases htier : vpTier env.tier env.imgDownloadPath env.sha with ⟨rt, tt⟩
        have htt : tt.all (isBodyEv (urlKey env.sha)) = true := by
          have h := all_weaken (tier_imp_body (urlKey env.sha))
            (vpTier_all env.tier env.imgDownloadPath env.sha)
          rw [htier] at h
          exact h
        cases rt with
        | error e2 => simp [List.all_append, ht0, htt]
        | ok okv =>
          exact vpAfterAcquire_all env _ _ (by simp [List.all_append, ht0, htt])
      · cases hd : env.downloadToBuffer with
        | error m => simp [List.all_append, ht0, isBodyEv]
        | ok b =>
          exact vpAfterAcquire_all env _ _ (by simp [List.all_append, ht0, isBodyEv])
    · by_cases hv : getUrlType env.url = "video"
      all_goals simp only [hv, if_true, if_false, ite_true, ite_false]
      · cases hd : env.fileVideoDownload with
        | error m => simp [List.all_append, ht0, isBodyEv]
        | ok u1 =>
          cases hs : env.fileVideoScreenshot with
          | ok u2 =>
            cases hm : env.fileMove with
            | ok u3 =>
              exact vpAfterAcquire_all env _ _ (by simp [List.all_append, ht0, isBodyEv])
            | error m2 => simp [List.all_append, ht0, isBodyEv]
          | error m2 =>
            cases hm : env.fileMove with
            | ok u3 => simp [List.all_append, ht0, isBodyEv]
            | error m3 => simp [List.all_append, ht0, isBodyEv]
      · cases hd : env.fileImageDownload with
        | error m => simp [List.all_append, ht0, isBodyEv]
        | ok u1 =>
          exact vpAfterAcquire_all env _ _ (by simp [List.all_append, ht0, isBodyEv])

theorem dataBody_all (env : DataEnv) :
    ((dataBody env).2).all (isBodyEv (dataKey env.sha)) = true := by
  unfold dataBody
  rcases hw : dataWriteStep env with ⟨w0, t0⟩
  have ht0 : t0.all (isBodyEv (dataKey env.sha)) = true := by
    have h : ((dataWriteStep env).2).all (isBodyEv (dataKey env.sha)) = true := by
      unfold dataWriteStep
      repeat' split
      all_goals simp [isBodyEv]
    rw [hw] at h
    exact h
  have hpipe := all_weaken (pipe_imp_body (dataKey env.sha))
    (pipeline_all env.pipe env.enableBufferProcessing env.imgDownloadPath env.sha)
  cases w0 with
  | error m => simpa using ht0
  | ok u0 =>
    rcases hp : runImagePredictionPipeline env.pipe env.enableBufferProcessing env.imgDownloadPath env.sha with ⟨pr, pt⟩
    rw [hp] at hpipe
    cases pr with
    | error m => simp [List.all_append, ht0, hpipe]
    | ok r => simp [List.all_append, ht0, hpipe, isBodyEv]

theorem cleanupTrail_all (env : UrlEnv) {p : Ev → Bool}
    (h1 : ∀ q, p (.deleteAttemptEv q) = true) (h2 : ∀ q, p (.deleteWarnEv q) = true) :
    (cleanupTrail env).all p = true := by
  unfold cleanupTrail
  exact flatMap_deleteSeq_all h1 h2

theorem phFinally_all (env : UrlEnv) (fs : List String) :
    (phFinallyTrace env fs).all isCleanupEv = true := by
  rw [List.all_eq_true]
  intro ev hev
  unfold phFinallyTrace at hev
  rcases List.mem_cons.mp hev with rfl | hev
  · rfl
  rcases List.mem_append.mp hev with hev | hev
  · rcases mem_flatMap_deleteSeq hev with ⟨q, _, rfl | rfl⟩ <;> rfl
  · revert hev
    split
    · simp
    · intro hev
      unfold cleanupTrail at hev
      rcases mem_flatMap_deleteSeq hev with ⟨q, _, rfl | rfl⟩ <;> rfl

theorem vpFinally_all (env : VpEnv) (fs : List String) :
    (vpFinallyTrace env fs).all isCleanupEv = true := by
  rw [List.all_eq_true]
  intro ev hev
  unfold vpFinallyTrace at hev
  rcases List.mem_cons.mp hev with rfl | hev
  · rfl
  · rcases mem_flatMap_deleteSeq hev with ⟨q, _, rfl | rfl⟩ <;> rfl

theorem dataFinally_all (env : DataEnv) :
    (dataFinallyTrace env).all (fun ev => isCleanupEv ev && notReleaseB ev) = true := by
  rw [List.all_eq_true]
  intro ev hev
  unfold dataFinallyTrace at hev
  revert hev
  split
  · simp
  · intro hev
    rcases mem_deleteSeq hev with rfl | rfl <;> rfl

theorem count_release_of_all_cleanupFree {l : List Ev}
    (h : l.all notReleaseB = true) : l.count Ev.releaseEv = 0 := by
  rw [List.count_eq_zero]
  intro hmem
  have := mem_of_all h hmem
  simp [notReleaseB] at this

theorem count_release_flatMap_deleteSeq (d : String → Except String Bool) (fs : List String) :
    (fs.flatMap (deleteSeq d)).count Ev.releaseEv = 0 :=
  count_release_of_all_cleanupFree (flatMap_deleteSeq_all (fun _ => rfl) (fun _ => rfl))

theorem phFinally_count_release (env : UrlEnv) (fs : List String) :
    (phFinallyTrace env fs).count Ev.releaseEv = 1 := by
  unfold phFinallyTrace
  rw [List.count_cons_self, List.count_append]
  rw [count_release_flatMap_deleteSeq]
  have : (if env.enableBufferProcessing = true then ([] : List Ev) else cleanupTrail env).count Ev.releaseEv = 0 := by
    split
    · rfl
    · exact count_release_of_all_cleanupFree
        (cleanupTrail_all env (fun _ => rfl) (fun _ => rfl))
  rw [this]

theorem vpFinally_count_release (env : VpEnv) (fs : List String) :
    (vpFinallyTrace env fs).count Ev.releaseEv = 1 := by
  unfold vpFinallyTrace
  rw [List.count_cons_self, count_release_flatMap_deleteSeq]

theorem body_imp_notRelease (k : String) :
    ∀ ev, isBodyEv k ev = true → notReleaseB ev = true := by
  intro ev h
  cases ev <;> simp_all [isBodyEv, notReleaseB]

theorem phBody_deleteRes_indep (env : UrlEnv) (d : String → Except String Bool) :
    phBody { env with deleteFileRes := d } = phBody env := rfl

theorem vpBody_deleteRes_indep (env : VpEnv) (d : String → Except String Bool) :
    vpBody { env with deleteFileRes := d } = vpBody env := rfl

theorem dataBody_deleteRes_indep (env : DataEnv) (d : String → Except String Bool) :
    dataBody { env with deleteFileRes := d } = dataBody env := rfl

/-- C1: two concurrent first-time calls of `processUrlForPrediction`
(prediction-handler.mjs lines 203-215) for the same URL fingerprint do NOT
always observe the same mutex.  Under the real event-loop interleaving of
two calls started in one synchronous segment — modelled by
`sameTickSchedule`, whose two prologue steps run before either deferred
`createMutex` continuation because each call builds a fresh
`pMemoize(createMutex)` whose wrapper suspends (`await cache.has(key)`)
before invoking `createMutex` — caller A observes mutex 0, caller B observes
mutex 1, the two mutexes differ, and BOTH callers acquire their own mutex
and enter the acquisition-through-classification pipeline concurrently.
This falsifies the claim as stated (and the source's own comment
"Atomically get or create the mutex using p-memoize"). -/
theorem c1_mutex_creation_race :
    (runRace "fp" sameTickSchedule).obsA = some 0
    ∧ (runRace "fp" sameTickSchedule).obsB = some 1
    ∧ (runRace "fp" sameTickSchedule).obsA ≠ (runRace "fp" sameTickSchedule).obsB
    ∧ (runRace "fp" sameTickSchedule).inPipelineA = true
    ∧ (runRace "fp" sameTickSchedule).inPipelineB = true := by
  decide

/-- C2: the tier ordering holds in both variants — Tier-1 success stops
everything (the trace is exactly the two Tier-1 calls), Tier-2 success never
reaches Tier 3 — but on the all-tiers-fail input the error
video-processor.mjs surfaces is the strict-mode TypeError of line 96
(missing semicolon: `tempFilesCreated.push(...)[err] = await to(...)`), not
the Tier-3 stage-named error; it does not even contain the "[Tier 3]"
marker.  The prediction-handler.mjs variant of the same helper does return
the Tier-3 stage-named error with both temp paths, which is what the test
suite ("should throw an error if all three video processing tiers fail")
expects of the video-processor variant too. -/
theorem c2_tier3_error_not_surfaced :
    (vpTier allTiersFailEnv tmpDir shaF).1
      = .error { message := typeErrorOnPush, tempFilesCreated := none }
    ∧ strIncludes typeErrorOnPush tier3Prefix = false
    ∧ (phTier allTiersFailEnv tmpDir shaF).1
      = .error { message := tier3DownloadFailedMsg ++ "File download failed"
                 tempFilesCreated := [fallbackVideoPath, fallbackShotPath] }
    ∧ strIncludes (tier3DownloadFailedMsg ++ "File download failed") tier3Prefix = true
    ∧ (vpTier tier1OkEnv tmpDir shaF).2 = [.getVideoStreamEv, .genShotFromStreamEv]
    ∧ (phTier tier1OkEnv tmpDir shaF).2 = [.getVideoStreamEv, .genShotFromStreamEv]
    ∧ (phTier tier2OkEnv tmpDir shaF).2
      = [.getVideoStreamEv, .downloadPartBufferEv, .genShotFromBufferEv]
    ∧ (phTier tier2OkEnv tmpDir shaF).1
      = .ok { screenshotBuffer := 5
              downloadStatus := "screenshot from partial buffer (fallback)"
              tempFilesCreated := [] } := by
  refine ⟨rfl, by decide, rfl, by decide, rfl, rfl, rfl, rfl⟩

/-- C7: the result cache is a bounded LRUCache, but the keyed-lock registry
of index.mjs is `const mutexes = new Map()`: after requests for two distinct
fingerprints the registry holds both mutexes forever (nothing deletes or
evicts them), so with MUTEX_CACHE_MAX_ITEM_NUM configured as 1 the registry
exceeds its configured bound — MUTEX_CACHE_MAX_ITEM_NUM and
MUTEX_CACHE_TTL_IN_SECONDS of config.mjs are never read by any registry
code. -/
theorem c7_mutex_registry_unbounded :
    (mutexRegistryAfter ["fpA", "fpB"]).1.length = 2
    ∧ mutexCacheMaxConfigured < (mutexRegistryAfter ["fpA", "fpB"]).1.length
    ∧ (mutexRegistryAfter ["fpA", "fpB"]).1.lookup "fpA" = some 0
    ∧ (mutexRegistryAfter ["fpA", "fpB"]).1.lookup "fpB" = some 1 := by
  decide

theorem ph_count_release (env : UrlEnv) :
    (processUrlForPrediction env).trace.count Ev.releaseEv = 1 := by
  unfold processUrlForPrediction
  cases hc : env.resultCacheGet (urlKey env.sha) with
  | some c => simp
  | none =>
    rcases hb : phBody env with ⟨r, t, fs⟩
    dsimp only
    rw [List.count_append, phFinally_count_release]
    have ht : t.all notReleaseB = true := by
      have h := all_weaken (body_imp_notRelease (urlKey env.sha)) (phBody_all env)
      rw [hb] at h
      exact h
    rw [count_release_of_all_cleanupFree ht]

theorem vp_count_release (env : VpEnv) :
    (vpProcessUrlForPrediction env).trace.count Ev.releaseEv = 1 := by
  unfold vpProcessUrlForPrediction
  cases hc : env.resultCacheGet (urlKey env.sha) with
  | some c => simp
  | none =>
    rcases hb : vpBody env with ⟨r, t, fs⟩
    dsimp only
    rw [List.count_append, vpFinally_count_release]
    have ht : t.all notReleaseB = true := by
      have h := all_weaken (body_imp_notRelease (urlKey env.sha)) (vpBody_all env)
      rw [hb] at h
      exact h
    rw [count_release_of_all_cleanupFree ht]

theorem ph_tracked_deleted (env : UrlEnv) :
    ∀ p ∈ (processUrlForPrediction env).tempFilesTracked,
      Ev.deleteAttemptEv p ∈ (processUrlForPrediction env).trace := by
  unfold processUrlForPrediction
  cases hc : env.resultCacheGet (urlKey env.sha) with
  | some c => simp
  | none =>
    rcases hb : phBody env with ⟨r, t, fs⟩
    dsimp only
    intro p hp
    refine List.mem_append.mpr (Or.inr ?_)
    unfold phFinallyTrace
    exact List.mem_cons.mpr (Or.inr (List.mem_append.mpr (Or.inl (deleteAttempt_mem_flatMap hp))))

theorem vp_tracked_deleted (env : VpEnv) :
    ∀ p ∈ (vpProcessUrlForPrediction env).tempFilesTracked,
      Ev.deleteAttemptEv p ∈ (vpProcessUrlForPrediction env).trace := by
  unfold vpProcessUrlForPrediction
  cases hc : env.resultCacheGet (urlKey env.sha) with
  | some c => simp
  | none =>
    rcases hb : vpBody env with ⟨r, t, fs⟩
    dsimp only
    intro p hp
    refine List.mem_append.mpr (Or.inr ?_)
    unfold vpFinallyTrace
    exact List.mem_cons.mpr (Or.inr (deleteAttempt_mem_flatMap hp))

theorem ph_result_eq (env : UrlEnv) :
    (processUrlForPrediction env).result
      = (match env.resultCacheGet (urlKey env.sha) with
         | some c => .ok c
         | none => (phBody env).1) := by
  unfold processUrlForPrediction
  cases hc : env.resultCacheGet (urlKey env.sha) with
  | some c => rfl
  | none =>
    rcases hb : phBody env with ⟨r, t, fs⟩
    rfl

theorem vp_result_eq (env : VpEnv) :
    (vpProcessUrlForPrediction env).result
      = (match env.resultCacheGet (urlKey env.sha) with
         | some c => .ok c
         | none => (vpBody env).1) := by
  unfold vpProcessUrlForPrediction
  cases hc : env.resultCacheGet (urlKey env.sha) with
  | some c => rfl
  | none =>
    rcases hb : vpBody env with ⟨r, t, fs⟩
    rfl

theorem ph_deleteRes_indep (env : UrlEnv) (d : String → Except String Bool) :
    (processUrlForPrediction { env with deleteFileRes := d }).result
      = (processUrlForPrediction env).result := by
  rw [ph_result_eq, ph_result_eq]
  rfl

theorem vp_deleteRes_indep (env : VpEnv) (d : String → Except String Bool) :
    (vpProcessUrlForPrediction { env with deleteFileRes := d }).result
      = (vpProcessUrlForPrediction env).result := by
  rw [vp_result_eq, vp_result_eq]
  rfl

/-- C3: on every exit path of `processUrlForPrediction` — cache hit after
lock acquisition, success, or failure at any stage (cancellation surfaces as
one of the failure outcomes of the environment) — the keyed mutex is
released exactly once, a deletion attempt is made for every path recorded in
the tracked temp-file list, and the outcome a deletion produces (including
failure, which only logs a warning) never changes the call's returned value
or thrown error.  Proved for both coordinator variants
(prediction-handler.mjs and video-processor.mjs). -/
theorem c3_cleanup_on_every_path (env : UrlEnv) (venv : VpEnv) :
    ((processUrlForPrediction env).trace.count Ev.releaseEv = 1
      ∧ (∀ p ∈ (processUrlForPrediction env).tempFilesTracked,
          Ev.deleteAttemptEv p ∈ (processUrlForPrediction env).trace)
      ∧ (∀ d, (processUrlForPrediction { env with deleteFileRes := d }).result
            = (processUrlForPrediction env).result))
    ∧ ((vpProcessUrlForPrediction venv).trace.count Ev.releaseEv = 1
      ∧ (∀ p ∈ (vpProcessUrlForPrediction venv).tempFilesTracked,
          Ev.deleteAttemptEv p ∈ (vpProcessUrlForPrediction venv).trace)
      ∧ (∀ d, (vpProcessUrlForPrediction { venv with deleteFileRes := d }).result
            = (vpProcessUrlForPrediction venv).result)) :=
  ⟨⟨ph_count_release env, ph_tracked_deleted env, fun d => ph_deleteRes_indep env d⟩,
   ⟨vp_count_release venv, vp_tracked_deleted venv, fun d => vp_deleteRes_indep venv d⟩⟩

theorem tier_imp_noCacheSet : ∀ ev, isTierEv ev = true → noCacheSetB ev = true := by
  intro ev h
  cases ev <;> simp_all [isTierEv, noCacheSetB]

theorem phTier3_error (e : TierEnv) (tv ts : String) :
    ∀ e2, (phTier3 e tv ts).1 = .error e2 →
      ((∃ c, e2.message = tier3DownloadFailedMsg ++ c)
        ∨ (∃ c, e2.message = tier3GenFailedMsg ++ c)
        ∨ (∃ c, e2.message = tier3ReadFailedMsg ++ c))
      ∧ e2.tempFilesCreated = [tv, ts] := by
  intro e2 h
  unfold phTier3 at h
  repeat' split at h
  all_goals injection h
  all_goals rename_i h2
  all_goals subst h2
  all_goals refine ⟨?_, rfl⟩
  all_goals first
    | exact Or.inl ⟨_, rfl⟩
    | exact Or.inr (Or.inl ⟨_, rfl⟩)
    | exact Or.inr (Or.inr ⟨_, rfl⟩)

theorem phTier2_error (e : TierEnv) (tv ts : String) :
    ∀ e2, (phTier2 e tv ts).1 = .error e2 →
      ((∃ c, e2.message = tier3DownloadFailedMsg ++ c)
        ∨ (∃ c, e2.message = tier3GenFailedMsg ++ c)
        ∨ (∃ c, e2.message = tier3ReadFailedMsg ++ c))
      ∧ e2.tempFilesCreated = [tv, ts] := by
  intro e2 h
  unfold phTier2 at h
  repeat' split at h
  all_goals first
    | (injection h)
    | (rename_i r2 t2 heq
       exact phTier3_error e tv ts e2 (by rw [heq]; exact h))

theorem phTier_error (e : TierEnv) (ip s : String) :
    ∀ e2, (phTier e ip s).1 = .error e2 →
      ((∃ c, e2.message = tier3DownloadFailedMsg ++ c)
        ∨ (∃ c, e2.message = tier3GenFailedMsg ++ c)
        ∨ (∃ c, e2.message = tier3ReadFailedMsg ++ c))
      ∧ e2.tempFilesCreated
        = [pathJoin ip (s ++ videoFallbackSuffix), pathJoin ip (s ++ screenshotFallbackSuffix)] := by
  intro e2 h
  unfold phTier at h
  repeat' split at h
  all_goals first
    | (injection h)
    | (rename_i r2 t2 heq
       exact phTier2_error e (pathJoin ip (s ++ videoFallbackSuffix)) (pathJoin ip (s ++ screenshotFallbackSuffix)) e2 (by rw [heq]; exact h))

theorem pipeline_error (p : PipeEnv) (eb : Bool) (ip fn : String) :
    ∀ m, (runImagePredictionPipeline p eb ip fn).1 = .error m →
      (∃ c, m = "Image processing failed: " ++ c)
      ∨ (∃ c, m = "Classification failed: " ++ c) := by
  intro m h
  unfold runImagePredictionPipeline at h
  repeat' split at h
  all_goals injection h
  all_goals rename_i h2
  all_goals subst h2
  all_goals first
    | exact Or.inl ⟨_, rfl⟩
    | exact Or.inr ⟨_, rfl⟩

theorem pipeline_ok (p : PipeEnv) (eb : Bool) (ip fn : String) :
    ∀ r, (runImagePredictionPipeline p eb ip fn).1 = .ok r →
      p.classifyFromByteArray = .ok r ∨ p.classifyImageFile = .ok r := by
  intro r h
  unfold runImagePredictionPipeline at h
  repeat' split at h
  all_goals injection h
  all_goals rename_i heq h2
  all_goals subst h2
  all_goals first
    | exact Or.inl heq
    | exact Or.inr heq

theorem noCacheSet_not_mem {t : List Ev} (hall : t.all noCacheSetB = true) (k : String) :
    Ev.cacheSetEv k ∉ t := by
  intro hk
  have := mem_of_all hall hk
  simp [noCacheSetB] at this

theorem phABA_spec (env : UrlEnv) (t : List Ev) (fs : List String)
    (htc : t.all noCacheSetB = true) :
    (∀ e, (phAfterBufferAcquire env t fs).1 = .error e →
        ((∃ c, e = "Image processing failed for " ++ env.url ++ ": " ++ c)
          ∨ (∃ c, e = "Classification failed for " ++ env.url ++ ": " ++ c))
        ∧ ((phAfterBufferAcquire env t fs).2.1).all noCacheSetB = true)
    ∧ (∀ k, Ev.cacheSetEv k ∈ (phAfterBufferAcquire env t fs).2.1 →
        k = urlKey env.sha
          ∧ ∃ r, (phAfterBufferAcquire env t fs).1 = .ok r
              ∧ env.classifyFromByteArray = .ok r) := by
  unfold phAfterBufferAcquire
  cases hp : env.processImageData with
  | error m =>
    refine ⟨fun e he => ?_, fun k hk => ?_⟩
    · injection he
      rename_i he2
      subst he2
      exact ⟨Or.inl ⟨_, rfl⟩, by simp [List.all_append, htc, noCacheSetB]⟩
    · exfalso
      rcases List.mem_append.mp hk with hk | hk
      · exact noCacheSet_not_mem htc k hk
      · simp at hk
  | ok b =>
    cases hcl : env.classifyFromByteArray with
    | error m =>
      refine ⟨fun e he => ?_, fun k hk => ?_⟩
      · injection he
        rename_i he2
        subst he2
        exact ⟨Or.inr ⟨_, rfl⟩, by simp [List.all_append, htc, noCacheSetB]⟩
      · exfalso
        rcases List.mem_append.mp hk with hk | hk
        · exact noCacheSet_not_mem htc k hk
        · simp at hk
    | ok r =>
      refine ⟨fun e he => ?_, fun k hk => ?_⟩
      · injection he
      · rcases List.mem_append.mp hk with hk | hk
        · exact absurd hk (noCacheSet_not_mem htc k)
        · simp at hk
          exact ⟨hk, r, rfl, rfl⟩

theorem phAFA_spec (env : UrlEnv) (t : List Ev)
    (htc : t.all noCacheSetB = true) :
    (∀ e, (phAfterFileAcquire env t).1 = .error e →
        ((∃ c, e = "Image processing failed: " ++ c)
          ∨ (∃ c, e = "Classification failed: " ++ c))
        ∧ ((phAfterFileAcquire env t).2.1).all noCacheSetB = true)
    ∧ (∀ k, Ev.cacheSetEv k ∈ (phAfterFileAcquire env t).2.1 →
        k = urlKey env.sha
          ∧ ∃ r, (phAfterFileAcquire env t).1 = .ok r ∧ env.classifyImageFile = .ok r) := by
  unfold phAfterFileAcquire
  cases hp : env.processImageFile with
  | error m =>
    refine ⟨fun e he => ?_, fun k hk => ?_⟩
    · injection he
      rename_i he2
      subst he2
      exact ⟨Or.inl ⟨_, rfl⟩, by simp [List.all_append, htc, noCacheSetB]⟩
    · exfalso
      rcases List.mem_append.mp hk with hk | hk
      · exact noCacheSet_not_mem htc k hk
      · simp at hk
  | ok u =>
    cases hcl : env.classifyImageFile with
    | error m =>
      refine ⟨fun e he => ?_, fun k hk => ?_⟩
      · injection he
        rename_i he2
        subst he2
        exact ⟨Or.inr ⟨_, rfl⟩, by simp [List.all_append, htc, noCacheSetB]⟩
      · exfalso
        rcases List.mem_append.mp hk with hk | hk
        · exact noCacheSet_not_mem htc k hk
        · simp at hk
    | ok r =>
      refine ⟨fun e he => ?_, fun k hk => ?_⟩
      · injection he
      · rcases List.mem_append.mp hk with hk | hk
        · exact absurd hk (noCacheSet_not_mem htc k)
        · simp at hk
          exact ⟨hk, r, rfl, rfl⟩

theorem contentCheck_error (b : Bool) (ci : Except String String) (u : String) :
    ∀ m, (contentCheckStep b ci u).1 = .error m →
      (∃ c, m = "Failed to get content info for " ++ u ++ ": " ++ c)
      ∨ m = "Only image/video URLs are acceptable for " ++ u := by
  intro m h
  unfold contentCheckStep at h
  repeat' split at h
  all_goals injection h
  all_goals rename_i h2
  all_goals subst h2
  · exact Or.inl ⟨_, rfl⟩
  · exact Or.inr rfl

theorem phBody_spec (env : UrlEnv) :
    (∀ e, (phBody env).1 = .error e →
        namesUrlStage env.url e ∧ ((phBody env).2.1).all noCacheSetB = true)
    ∧ (∀ k, Ev.cacheSetEv k ∈ (phBody env).2.1 →
        k = urlKey env.sha
          ∧ ∃ r, (phBody env).1 = .ok r
              ∧ (env.classifyFromByteArray = .ok r ∨ env.classifyImageFile = .ok r)) := by
  unfold phBody
  rcases hcc : contentCheckStep env.enableContentTypeCheck env.contentInfo env.url with ⟨c0, t0⟩
  have ht0 : t0.all noCacheSetB = true := by
    have h := contentCheck_all env.enableContentTypeCheck env.contentInfo env.url
      (p := noCacheSetB) rfl
    rw [hcc] at h
    exact h
  cases c0 with
  | error m =>
    refine ⟨fun e he => ?_, fun k hk => ?_⟩
    · injection he
      rename_i he2
      subst he2
      refine ⟨?_, by simpa using ht0⟩
      have hce := contentCheck_error env.enableContentTypeCheck env.contentInfo env.url m
        (by rw [hcc])
      rcases hce with ⟨c, hc⟩ | hc
      · exact Or.inl ⟨c, hc⟩
      · exact Or.inr (Or.inl hc)
    · exact absurd (by simpa using hk) (noCacheSet_not_mem ht0 k)
  | ok u0 =>
    by_cases hb : env.enableBufferProcessing = true
    all_goals simp only [hb, if_true, if_false, Bool.false_eq_true, ite_true, ite_false]
    · by_cases hv : getUrlType env.url = "video"
      all_goals simp only [hv, if_true, if_false, ite_true, ite_false]
      · rcases htier : phTier env.tier env.imgDownloadPath env.sha with ⟨rt, tt⟩
        have htt : tt.all noCacheSetB = true := by
          have h := all_weaken tier_imp_noCacheSet
            (phTier_all env.tier env.imgDownloadPath env.sha)
          rw [htier] at h
          exact h
        cases rt with
        | error e2 =>
          refine ⟨fun e he => ?_, fun k hk => ?_⟩
          · injection he
            rename_i he2
            subst he2
            refine ⟨?_, by simp [List.all_append, ht0, htt]⟩
            have h3 := (phTier_error env.tier env.imgDownloadPath env.sha e2
              (by rw [htier])).1
            rcases h3 with ⟨c, hc⟩ | ⟨c, hc⟩ | ⟨c, hc⟩
            · exact Or.inr (Or.inr (Or.inl ⟨c, hc⟩))
            · exact Or.inr (Or.inr (Or.inr (Or.inl ⟨c, hc⟩)))
            · exact Or.inr (Or.inr (Or.inr (Or.inr (Or.inl ⟨c, hc⟩))))
          · exfalso
            rcases (by simpa using hk : Ev.cacheSetEv k ∈ t0 ∨ Ev.cacheSetEv k ∈ tt) with hk2 | hk2
            · exact noCacheSet_not_mem ht0 k hk2
            · exact noCacheSet_not_mem htt k hk2
        | ok okv =>
          have hs := phABA_spec env (t0 ++ tt) okv.tempFilesCreated
            (by simp [List.all_append, ht0, htt])
          refine ⟨fun e he => ?_, fun k hk => ?_⟩
          · rcases (hs.1 e he) with ⟨hm, hall⟩
            refine ⟨?_, hall⟩
            rcases hm with ⟨c, hc⟩ | ⟨c, hc⟩
            · exact Or.inr (Or.inr (Or.inr (Or.inr (Or.inr (Or.inr (Or.inl ⟨c, hc⟩))))))
            · exact Or.inr (Or.inr (Or.inr (Or.inr (Or.inr (Or.inr (Or.inr (Or.inl ⟨c, hc⟩)))))))
          · rcases (hs.2 k hk) with ⟨hkeq, r, hok, hcl⟩
            exact ⟨hkeq, r, hok, Or.inl hcl⟩
      · cases hd : env.downloadToBuffer with
        | error m =>
          refine ⟨fun e he => ?_, fun k hk => ?_⟩
          · injection he
            rename_i he2
            subst he2
            refine ⟨?_, by simp [List.all_append, ht0, noCacheSetB]⟩
            exact Or.inr (Or.inr (Or.inr (Or.inr (Or.inr (Or.inl ⟨_, rfl⟩)))))
          · exact absurd (by simpa using hk) (noCacheSet_not_mem ht0 k)
        | ok b2 =>
          have hs := phABA_spec env (t0 ++ [.downloadFileToBufferEv]) []
            (by simp [List.all_append, ht0, noCacheSetB])
          refine ⟨fun e he => ?_, fun k hk => ?_⟩
          · rcases (hs.1 e he) with ⟨hm, hall⟩
            refine ⟨?_, hall⟩
            rcases hm with ⟨c, hc⟩ | ⟨c, hc⟩
            · exact Or.inr (Or.inr (Or.inr (Or.inr (Or.inr (Or.inr (Or.inl ⟨c, hc⟩))))))
            · exact Or.inr (Or.inr (Or.inr (Or.inr (Or.inr (Or.inr (Or.inr (Or.inl ⟨c, hc⟩)))))))
          · rcases (hs.2 k hk) with ⟨hkeq, r, hok, hcl⟩
            exact ⟨hkeq, r, hok, Or.inl hcl⟩
    · by_cases hv : getUrlType env.url = "video"
      all_goals simp only [hv, if_true, if_false, ite_true, ite_false]
      · cases hd : env.fileVideoDownload with
        | error m =>
          refine ⟨fun e he => ?_, fun k hk => ?_⟩
          · injection he
            rename_i he2
            subst he2
            refine ⟨?_, by simp [List.all_append, ht0, noCacheSetB]⟩
            exact Or.inr (Or.inr (Or.inr (Or.inr (Or.inr (Or.inr (Or.inr (Or.inr (Or.inl ⟨_, rfl⟩))))))))
          · exact absurd (by simpa using hk) (noCacheSet_not_mem ht0 k)
        | ok u1 =>
          cases hsx : env.fileVideoScreenshot with
          | ok u2 =>
            cases hm : env.fileMove with
            | ok u3 =>
              have hs := phAFA_spec env
                (t0 ++ [.downloadPartFileEv (env.imgDownloadPath ++ env.sha ++ "_video"),
                        .genScreenshotEv, .moveFileEv])
                (by simp [List.all_append, ht0, noCacheSetB])
              refine ⟨fun e he => ?_, fun k hk => ?_⟩
              · rcases (hs.1 e he) with ⟨hme, hall⟩
                refine ⟨?_, hall⟩
                rcases hme with ⟨c, hc⟩ | ⟨c, hc⟩
                · exact Or.inr (Or.inr (Or.inr (Or.inr (Or.inr (Or.inr (Or.inr (Or.inr (Or.inr (Or.inr (Or.inr (Or.inl ⟨c, hc⟩)))))))))))
                · exact Or.inr (Or.inr (Or.inr (Or.inr (Or.inr (Or.inr (Or.inr (Or.inr (Or.inr (Or.inr (Or.inr (Or.inr ⟨c, hc⟩)))))))))))
              · rcases (hs.2 k hk) with ⟨hkeq, r, hok, hcl⟩
                exact ⟨hkeq, r, hok, Or.inr hcl⟩
            | error m2 =>
              refine ⟨fun e he => ?_, fun k hk => ?_⟩
              · injection he
                rename_i he2
                subst he2
                refine ⟨?_, by simp [List.all_append, ht0, noCacheSetB]⟩
                exact Or.inr (Or.inr (Or.inr (Or.inr (Or.inr (Or.inr (Or.inr (Or.inr (Or.inr (Or.inl ⟨_, rfl⟩)))))))))
              · exact absurd (by simpa using hk) (noCacheSet_not_mem ht0 k)
          | error m2 =>
            cases hm : env.fileMove with
            | ok u3 =>
              refine ⟨fun e he => ?_, fun k hk => ?_⟩
              · injection he
                rename_i he2
                subst he2
                refine ⟨?_, by simp [List.all_append, ht0, noCacheSetB]⟩
                exact Or.inr (Or.inr (Or.inr (Or.inr (Or.inr (Or.inr (Or.inr (Or.inr (Or.inr (Or.inl ⟨_, rfl⟩)))))))))
              · exact absurd (by simpa using hk) (noCacheSet_not_mem ht0 k)
            | error m3 =>
              refine ⟨fun e he => ?_, fun k hk => ?_⟩
              · injection he
                rename_i he2
                subst he2
                refine ⟨?_, by simp [List.all_append, ht0, noCacheSetB]⟩
                exact Or.inr (Or.inr (Or.inr (Or.inr (Or.inr (Or.inr (Or.inr (Or.inr (Or.inr (Or.inl ⟨_, rfl⟩)))))))))
              · exact absurd (by simpa using hk) (noCacheSet_not_mem ht0 k)
      · cases hd : env.fileImageDownload with
        | error m =>
          refine ⟨fun e he => ?_, fun k hk => ?_⟩
          · injection he
            rename_i he2
            subst he2
            refine ⟨?_, by simp [List.all_append, ht0, noCacheSetB]⟩
            exact Or.inr (Or.inr (Or.inr (Or.inr (Or.inr (Or.inr (Or.inr (Or.inr (Or.inr (Or.inr (Or.inl ⟨_, rfl⟩))))))))))
          · exact absurd (by simpa using hk) (noCacheSet_not_mem ht0 k)
        | ok u1 =>
          have hs := phAFA_spec env
            (t0 ++ [.downloadFileEv (env.imgDownloadPath ++ env.sha ++ "_" ++ "image")])
            (by simp [List.all_append, ht0, noCacheSetB])
          refine ⟨fun e he => ?_, fun k hk => ?_⟩
          · rcases (hs.1 e he) with ⟨hme, hall⟩
            refine ⟨?_, hall⟩
            rcases hme with ⟨c, hc⟩ | ⟨c, hc⟩
            · exact Or.inr (Or.inr (Or.inr (Or.inr (Or.inr (Or.inr (Or.inr (Or.inr (Or.inr (Or.inr (Or.inr (Or.inl ⟨c, hc⟩)))))))))))
            · exact Or.inr (Or.inr (Or.inr (Or.inr (Or.inr (Or.inr (Or.inr (Or.inr (Or.inr (Or.inr (Or.inr (Or.inr ⟨c, hc⟩)))))))))))
          · rcases (hs.2 k hk) with ⟨hkeq, r, hok, hcl⟩
            exact ⟨hkeq, r, hok, Or.inr hcl⟩

theorem pipe_imp_noCacheSet : ∀ ev, isPipeEv ev = true → noCacheSetB ev = true := by
  intro ev h
  cases ev <;> simp_all [isPipeEv, noCacheSetB]

theorem cleanup_imp_noCacheSet : ∀ ev, isCleanupEv ev = true → noCacheSetB ev = true := by
  intro ev h
  cases ev <;> simp_all [isCleanupEv, noCacheSetB]

theorem dataWrite_all (env : DataEnv) {p : Ev → Bool}
    (h1 : ∀ d2, p (.writeFileEv d2) = true) : ((dataWriteStep env).2).all p = true := by
  unfold dataWriteStep
  repeat' split
  all_goals simp [h1]

theorem dataWrite_error (env : DataEnv) :
    ∀ m, (dataWriteStep env).1 = .error m →
      ∃ c, m = "Failed to write image file: " ++ c := by
  intro m h
  unfold dataWriteStep at h
  repeat' split at h
  all_goals injection h
  all_goals rename_i h2
  all_goals subst h2
  exact ⟨_, rfl⟩

theorem dataBody_spec (env : DataEnv) :
    (∀ e, (dataBody env).1 = .error e →
        namesDataStage e ∧ ((dataBody env).2).all noCacheSetB = true)
    ∧ (∀ k, Ev.cacheSetEv k ∈ (dataBody env).2 →
        k = dataKey env.sha
          ∧ ∃ r, (dataBody env).1 = .ok r
              ∧ (env.pipe.classifyFromByteArray = .ok r
                  ∨ env.pipe.classifyImageFile = .ok r)) := by
  unfold dataBody
  rcases hw : dataWriteStep env with ⟨w0, t0⟩
  have ht0 : t0.all noCacheSetB = true := by
    have h := dataWrite_all env (p := noCacheSetB) (fun _ => rfl)
    rw [hw] at h
    exact h
  cases w0 with
  | error m =>
    refine ⟨fun e he => ?_, fun k hk => ?_⟩
    · injection he
      rename_i he2
      subst he2
      refine ⟨?_, by simpa using ht0⟩
      rcases dataWrite_error env m (by rw [hw]) with ⟨c, hc⟩
      exact Or.inl ⟨c, hc⟩
    · exact absurd (by simpa using hk) (noCacheSet_not_mem ht0 k)
  | ok u0 =>
    rcases hp : runImagePredictionPipeline env.pipe env.enableBufferProcessing env.imgDownloadPath env.sha with ⟨pr, pt⟩
    have hpt : pt.all noCacheSetB = true := by
      have h := all_weaken pipe_imp_noCacheSet
        (pipeline_all env.pipe env.enableBufferProcessing env.imgDownloadPath env.sha)
      rw [hp] at h
      exact h
    cases pr with
    | error m =>
      refine ⟨fun e he => ?_, fun k hk => ?_⟩
      · injection he
        rename_i he2
        subst he2
        refine ⟨?_, by simp [List.all_append, ht0, hpt]⟩
        rcases pipeline_error env.pipe env.enableBufferProcessing env.imgDownloadPath env.sha m
          (by rw [hp]) with ⟨c, hc⟩ | ⟨c, hc⟩
        · exact Or.inr (Or.inl ⟨c, hc⟩)
        · exact Or.inr (Or.inr ⟨c, hc⟩)
      · exfalso
        rcases (by simpa using hk : Ev.cacheSetEv k ∈ t0 ∨ Ev.cacheSetEv k ∈ pt) with hk2 | hk2
        · exact noCacheSet_not_mem ht0 k hk2
        · exact noCacheSet_not_mem hpt k hk2
    | ok r =>
      refine ⟨fun e he => ?_, fun k hk => ?_⟩
      · injection he
      · have hk2 : Ev.cacheSetEv k ∈ t0 ∨ Ev.cacheSetEv k ∈ pt ∨ k = dataKey env.sha := by
          simpa [List.mem_append, or_assoc] using hk
        rcases hk2 with hk2 | hk2 | hk2
        · exact absurd hk2 (noCacheSet_not_mem ht0 k)
        · exact absurd hk2 (noCacheSet_not_mem hpt k)
        · exact ⟨hk2, r, rfl,
            pipeline_ok env.pipe env.enableBufferProcessing env.imgDownloadPath env.sha r
              (by rw [hp])⟩

/-- C4: when `processUrlForPrediction` (prediction-handler.mjs) or
`processDataForPrediction` (data-processor.mjs) fails at any stage —
content-type check, download, screenshot extraction, image processing or
classification — the propagated error names the failing stage
(`namesUrlStage` / `namesDataStage` list exactly the stage-prefixed message
templates of the source) and no entry is inserted into the result cache;
conversely, any cache insertion is under the request's own fingerprint key
and happens only when classification succeeded, with the classifier's result
returned unchanged. -/
theorem c4_no_cache_on_failure (env : UrlEnv) (denv : DataEnv) :
    ((∀ e, (processUrlForPrediction env).result = .error e →
        namesUrlStage env.url e
          ∧ ∀ k, Ev.cacheSetEv k ∉ (processUrlForPrediction env).trace)
      ∧ (∀ k, Ev.cacheSetEv k ∈ (processUrlForPrediction env).trace →
          k = urlKey env.sha
            ∧ ∃ r, (processUrlForPrediction env).result = .ok r
                ∧ (env.classifyFromByteArray = .ok r ∨ env.classifyImageFile = .ok r)))
    ∧ ((∀ e, (processDataForPrediction denv).result = .error e →
        namesDataStage e
          ∧ ∀ k, Ev.cacheSetEv k ∉ (processDataForPrediction denv).trace)
      ∧ (∀ k, Ev.cacheSetEv k ∈ (processDataForPrediction denv).trace →
          k = dataKey denv.sha
            ∧ ∃ r, (processDataForPrediction denv).result = .ok r
                ∧ (denv.pipe.classifyFromByteArray = .ok r
                    ∨ denv.pipe.classifyImageFile = .ok r))) := by
  constructor
  · unfold processUrlForPrediction
    cases hc : env.resultCacheGet (urlKey env.sha) with
    | some c =>
      refine ⟨fun e he => ?_, fun k hk => ?_⟩
      · injection he
      · simp at hk
    | none =>
      rcases hb : phBody env with ⟨r, t, fs⟩
      have hsp := phBody_spec env
      rw [hb] at hsp
      have hfin : ∀ k, Ev.cacheSetEv k ∉ phFinallyTrace env fs := by
        intro k
        exact noCacheSet_not_mem
          (all_weaken cleanup_imp_noCacheSet (phFinally_all env fs)) k
      refine ⟨fun e he => ?_, fun k hk => ?_⟩
      · rcases hsp.1 e he with ⟨hn, hall⟩
        refine ⟨hn, fun k hk => ?_⟩
        rcases List.mem_append.mp (by simpa using hk) with hk2 | hk2
        · exact noCacheSet_not_mem hall k hk2
        · exact hfin k hk2
      · rcases List.mem_append.mp (by simpa using hk) with hk2 | hk2
        · exact hsp.2 k hk2
        · exact absurd hk2 (hfin k)
  · unfold processDataForPrediction
    cases hc : denv.resultCacheGet (dataKey denv.sha) with
    | some c =>
      refine ⟨fun e he => ?_, fun k hk => ?_⟩
      · injection he
      · simp at hk
    | none =>
      rcases hb : dataBody denv with ⟨r, t⟩
      have hsp := dataBody_spec denv
      rw [hb] at hsp
      have hfin : ∀ k, Ev.cacheSetEv k ∉ dataFinallyTrace denv := by
        intro k
        refine noCacheSet_not_mem (all_weaken ?_ (dataFinally_all denv)) k
        intro ev hev
        exact cleanup_imp_noCacheSet ev (Bool.and_elim_left hev)
      refine ⟨fun e he => ?_, fun k hk => ?_⟩
      · rcases hsp.1 e he with ⟨hn, hall⟩
        refine ⟨hn, fun k hk => ?_⟩
        rcases List.mem_append.mp (by simpa using hk) with hk2 | hk2
        · exact noCacheSet_not_mem hall k hk2
        · exact hfin k hk2
      · rcases List.mem_append.mp (by simpa using hk) with hk2 | hk2
        · exact hsp.2 k hk2
        · exact absurd hk2 (hfin k)

/-- C5: when the result cache already holds an entry under the request's
fingerprint key — `'url' + '-' + sha256(url)` for URL requests, checked
after the keyed lock is acquired, and `'data' + '-' + sha256(data)` for
inline data — the cached value is returned unchanged and the only event of
the request is the lock release: no download, screenshot, image-processing
or classification operation is invoked. -/
theorem c5_cache_hit_short_circuit (env : UrlEnv) (denv : DataEnv) (c c2 : Pred) :
    (env.resultCacheGet (urlKey env.sha) = some c →
      (processUrlForPrediction env).result = .ok c
        ∧ (processUrlForPrediction env).trace = [Ev.releaseEv])
    ∧ (denv.resultCacheGet (dataKey denv.sha) = some c2 →
      (processDataForPrediction denv).result = .ok c2
        ∧ (processDataForPrediction denv).trace = []) := by
  constructor
  · intro h
    unfold processUrlForPrediction
    rw [h]
    exact ⟨rfl, rfl⟩
  · intro h
    unfold processDataForPrediction
    rw [h]
    exact ⟨rfl, rfl⟩

/-- A concrete cache hit: the cached URL request returns the cached value 5
with only the release in its trace, the cached data request returns 6 with
an empty trace. -/
theorem c5_cache_hit_witness :
    (processUrlForPrediction cachedUrlEnv).result = .ok 5
    ∧ (processUrlForPrediction cachedUrlEnv).trace = [Ev.releaseEv]
    ∧ (processDataForPrediction cachedDataEnv).result = .ok 6
    ∧ (processDataForPrediction cachedDataEnv).trace = [] := by
  have h1 := (c5_cache_hit_short_circuit cachedUrlEnv cachedDataEnv 5 6).1 (by decide)
  have h2 := (c5_cache_hit_short_circuit cachedUrlEnv cachedDataEnv 5 6).2 (by decide)
  exact ⟨h1.1, h1.2, h2.1, h2.2⟩

/-- C6: on the all-tiers-fail video request, video-processor.mjs never hands
the two Tier-3 temp paths back to its coordinator: the TypeError thrown from
line 96 (see `vpTier`) carries no `tempFilesCreated` property, so the
coordinator tracks nothing and its cleanup phase attempts no deletion of
`<fingerprint>_video_fallback` or `<fingerprint>_screenshot_fallback.jpg`
— although Tier 3 did record both paths before starting its download.  The
prediction-handler.mjs variant of the same flow hands both paths back on the
same input and its cleanup deletes both, which is the behaviour the claim
(and the test expecting two `deleteFile` calls) describes. -/
theorem c6_tier3_paths_not_handed_back :
    (vpProcessUrlForPrediction c6VpEnv).result = .error typeErrorOnPush
    ∧ (vpProcessUrlForPrediction c6VpEnv).tempFilesTracked = []
    ∧ (vpProcessUrlForPrediction c6VpEnv).trace
        = [.getVideoStreamEv, .downloadPartBufferEv,
           .downloadPartFileEv fallbackVideoPath, .releaseEv]
    ∧ Ev.deleteAttemptEv fallbackVideoPath ∉ (vpProcessUrlForPrediction c6VpEnv).trace
    ∧ Ev.deleteAttemptEv fallbackShotPath ∉ (vpProcessUrlForPrediction c6VpEnv).trace
    ∧ (processUrlForPrediction c6PhEnv).result
        = .error (tier3DownloadFailedMsg ++ "File download failed")
    ∧ (processUrlForPrediction c6PhEnv).tempFilesTracked = [fallbackVideoPath, fallbackShotPath]
    ∧ Ev.deleteAttemptEv fallbackVideoPath ∈ (processUrlForPrediction c6PhEnv).trace
    ∧ Ev.deleteAttemptEv fallbackShotPath ∈ (processUrlForPrediction c6PhEnv).trace := by
  have hvp : (vpProcessUrlForPrediction c6VpEnv).trace
      = [.getVideoStreamEv, .downloadPartBufferEv,
         .downloadPartFileEv fallbackVideoPath, .releaseEv] := rfl
  have hph : (processUrlForPrediction c6PhEnv).trace
      = [.getVideoStreamEv, .downloadPartBufferEv, .downloadPartFileEv fallbackVideoPath,
         .releaseEv, .deleteAttemptEv fallbackVideoPath, .deleteAttemptEv fallbackShotPath] := rfl
  refine ⟨rfl, rfl, hvp, ?_, ?_, rfl, rfl, ?_, ?_⟩
  · rw [hvp]
    simp
  · rw [hvp]
    simp
  · rw [hph]
    simp
  · rw [hph]
    simp

/-- C8: the result object passes the four category scores through unchanged
in the documented order, `predictedLabel` carries the name of a category
whose score is the maximum of the four, and `isNsfw` holds exactly when the
neutral score is strictly below one half. -/
theorem c8_result_object (hS nS pS sS : ℚ) :
    (NsfwSpyResult.make hS nS pS sS).hentai = hS
    ∧ (NsfwSpyResult.make hS nS pS sS).neutral = nS
    ∧ (NsfwSpyResult.make hS nS pS sS).pornography = pS
    ∧ (NsfwSpyResult.make hS nS pS sS).sexy = sS
    ∧ (∃ v, ((NsfwSpyResult.make hS nS pS sS).predictedLabel, v) ∈ scoreDictionary hS nS pS sS
        ∧ v = max (max hS nS) (max pS sS))
    ∧ ((NsfwSpyResult.make hS nS pS sS).isNsfw ↔ nS < 1 / 2) := by
  refine ⟨rfl, rfl, rfl, rfl, ?_, Iff.rfl⟩
  have hperm : (toDictionary hS nS pS sS).Perm (scoreDictionary hS nS pS sS) :=
    List.perm_insertionSort scoreGe (scoreDictionary hS nS pS sS)
  have hsorted : (toDictionary hS nS pS sS).Sorted scoreGe :=
    List.sorted_insertionSort scoreGe (scoreDictionary hS nS pS sS)
  have hne : toDictionary hS nS pS sS ≠ [] := by
    intro h0
    have hl := hperm.length_eq
    rw [h0] at hl
    simp [scoreDictionary] at hl
  obtain ⟨x, xs, hx⟩ := List.exists_cons_of_ne_nil hne
  have hxmem : x ∈ scoreDictionary hS nS pS sS :=
    hperm.subset (hx ▸ List.mem_cons_self x xs)
  have hmax : ∀ y ∈ scoreDictionary hS nS pS sS, y.2 ≤ x.2 := by
    intro y hy
    have hy2 : y ∈ toDictionary hS nS pS sS := hperm.mem_iff.mpr hy
    rw [hx] at hy2
    rcases List.mem_cons.mp hy2 with rfl | hy2
    · exact le_refl _
    · rw [hx] at hsorted
      exact (List.pairwise_cons.mp hsorted).1 y hy2
  have hlabel : (NsfwSpyResult.make hS nS pS sS).predictedLabel = x.1 := by
    show (toDictionary hS nS pS sS).headI.1 = x.1
    rw [hx]
    rfl
  refine ⟨x.2, ?_, ?_⟩
  · rw [hlabel]
    exact hxmem
  · apply le_antisymm
    · have hx4 := hxmem
      simp only [scoreDictionary, List.mem_cons, List.not_mem_nil, or_false] at hx4
      rcases hx4 with rfl | rfl | rfl | rfl <;> simp [le_max_iff, le_refl]
    · exact max_le
        (max_le (hmax ("hentai", hS) (by simp [scoreDictionary]))
          (hmax ("neutral", nS) (by simp [scoreDictionary])))
        (max_le (hmax ("pornography", pS) (by simp [scoreDictionary]))
          (hmax ("sexy", sS) (by simp [scoreDictionary])))

/-! ## C9 — extension-driven routing -/

theorem video_ext_not_image {e : String} (h : e ∈ videoExtensions) :
    e ∉ imageExtensions := by
  simp only [videoExtensions, List.mem_cons, List.not_mem_nil, or_false] at h
  rcases h with rfl | rfl | rfl | rfl | rfl | rfl <;> decide

theorem video_ext_legacy_not_image {e : String} (h : e ∈ videoExtensionsLegacy) :
    e ∉ imageExtensions := by
  simp only [videoExtensionsLegacy, List.mem_cons, List.not_mem_nil, or_false] at h
  rcases h with rfl | rfl | rfl | rfl | rfl <;> decide

theorem noDot_suffix_none : ∀ l : List Char, '.' ∉ l → suffixFromLastDot l = none := by
  intro l
  induction l with
  | nil => intro _; rfl
  | cons c cs ih =>
    intro h
    have hc : ¬ (c = '.') := fun hce => h (by rw [hce]; exact List.mem_cons_self _ _)
    have hcs : '.' ∉ cs := fun hx => h (List.mem_cons_of_mem c hx)
    unfold suffixFromLastDot
    rw [ih hcs]
    simp [hc]

theorem phTier_head (e : TierEnv) (ip s : String) :
    ∃ t2, (phTier e ip s).2 = Ev.getVideoStreamEv :: t2 := by
  unfold phTier
  repeat' split
  all_goals exact ⟨_, rfl⟩

theorem phABA_trace_shape (env : UrlEnv) (t : List Ev) (fs : List String) :
    ∃ t2, (phAfterBufferAcquire env t fs).2.1 = t ++ t2 := by
  unfold phAfterBufferAcquire
  repeat' split
  all_goals exact ⟨_, rfl⟩

theorem phABA_all_any (env : UrlEnv) (t : List Ev) (fs : List String) {p : Ev → Bool}
    (ht : t.all p = true) (h1 : p .processImageDataEv = true)
    (h2 : p .classifyBufferEv = true) (h3 : p (.cacheSetEv (urlKey env.sha)) = true) :
    ((phAfterBufferAcquire env t fs).2.1).all p = true := by
  unfold phAfterBufferAcquire
  repeat' split
  all_goals simp [List.all_append, ht, h1, h2, h3]

theorem tier_imp_notDfb : ∀ ev, isTierEv ev = true → notDfbB ev = true := by
  intro ev h
  cases ev <;> simp_all [isTierEv, notDfbB]

theorem cleanup_imp_notStream : ∀ ev, isCleanupEv ev = true → notStreamB ev = true := by
  intro ev h
  cases ev <;> simp_all [isCleanupEv, notStreamB]

theorem cleanup_imp_notDfb : ∀ ev, isCleanupEv ev = true → notDfbB ev = true := by
  intro ev h
  cases ev <;> simp_all [isCleanupEv, notDfbB]

/-- C9: whether a request takes the tiered video-acquisition path is decided
purely by the lowercased extension of the URL path before any `?`:
`getUrlType` answers `"video"` exactly when that extension is in the video
list (`.mp4/.mov/.wmv/.webm/.avi/.mkv`; the legacy variant drops `.mkv`), a
path with no dot is classified `"unknown"`, and in the coordinator (buffer
mode, cache miss, content gate off) a non-video classification routes to the
single direct image download into a buffer — never touching the streaming
tier — while a video classification routes to the tiered acquisition
starting with the streaming download and never performs the direct image
download. -/
theorem c9_video_routing (url : String) (env : UrlEnv) :
    (getUrlType url = "video" ↔
      ∃ e, lowerExtension url = some e ∧ e ∈ videoExtensions)
    ∧ (getUrlTypeLegacy url = "video" ↔
      ∃ e, lowerExtension url = some e ∧ e ∈ videoExtensionsLegacy)
    ∧ ('.' ∉ pathBeforeQuery url → getUrlType url = "unknown")
    ∧ (env.url = url →
       env.resultCacheGet (urlKey env.sha) = none →
       env.enableContentTypeCheck = false →
       env.enableBufferProcessing = true →
       ((getUrlType url ≠ "video" →
          Ev.downloadFileToBufferEv ∈ (processUrlForPrediction env).trace
            ∧ Ev.getVideoStreamEv ∉ (processUrlForPrediction env).trace)
        ∧ (getUrlType url = "video" →
          Ev.getVideoStreamEv ∈ (processUrlForPrediction env).trace
            ∧ Ev.downloadFileToBufferEv ∉ (processUrlForPrediction env).trace))) := by
  refine ⟨?_, ?_, ?_, ?_⟩
  · constructor
    · intro h
      unfold getUrlType at h
      split at h
      · exact absurd h (by decide)
      · rename_i e hle
        split at h
        · exact absurd h (by decide)
        · split at h
          · rename_i hni hv
            exact ⟨e, hle, hv⟩
          · exact absurd h (by decide)
    · rintro ⟨e, he, hm⟩
      unfold getUrlType
      simp only [he]
      rw [if_neg (video_ext_not_image hm), if_pos hm]
  · constructor
    · intro h
      unfold getUrlTypeLegacy at h
      split at h
      · exact absurd h (by decide)
      · rename_i e hle
        split at h
        · exact absurd h (by decide)
        · split at h
          · rename_i hni hv
            exact ⟨e, hle, hv⟩
          · exact absurd h (by decide)
    · rintro ⟨e, he, hm⟩
      unfold getUrlTypeLegacy
      simp only [he]
      rw [if_neg (video_ext_legacy_not_image hm), if_pos hm]
  · intro h
    have hnone : lowerExtension url = none := by
      unfold lowerExtension
      rw [noDot_suffix_none (pathBeforeQuery url) h]
      rfl
    unfold getUrlType
    simp only [hnone]
  · intro hu hc hctc hbuf
    subst hu
    have hcc : contentCheckStep env.enableContentTypeCheck env.contentInfo env.url
        = (Except.ok (), []) := by
      rw [hctc]
      rfl
    unfold processUrlForPrediction
    rw [hc]
    dsimp only
    unfold phBody
    rw [hcc]
    dsimp only
    rw [if_pos hbuf]
    constructor
    · intro hnv
      rw [if_neg hnv]
      cases hd : env.downloadToBuffer with
      | error m =>
        dsimp only
        constructor
        · simp
        · intro hmem
          rcases List.mem_append.mp hmem with h2 | h2
          · simp at h2
          · exact absurd (cleanup_imp_notStream _ (mem_of_all (phFinally_all env []) h2))
              (by decide)
      | ok b2 =>
        dsimp only
        rcases ha : phAfterBufferAcquire env ([] ++ [Ev.downloadFileToBufferEv]) []
          with ⟨r2, tb, fb⟩
        dsimp only
        have hall : tb.all notStreamB = true := by
          have h := phABA_all_any env ([] ++ [Ev.downloadFileToBufferEv]) []
            (p := notStreamB) (by decide) rfl rfl rfl
          rw [ha] at h
          exact h
        constructor
        · rcases phABA_trace_shape env ([] ++ [Ev.downloadFileToBufferEv]) [] with ⟨tx, htx⟩
          rw [ha] at htx
          dsimp only at htx
          rw [htx]
          simp
        · intro hmem
          rcases List.mem_append.mp hmem with h2 | h2
          · exact absurd (mem_of_all hall h2) (by decide)
          · exact absurd (cleanup_imp_notStream _ (mem_of_all (phFinally_all env fb) h2))
              (by decide)
    · intro hv
      rw [if_pos hv]
      rcases htier : phTier env.tier env.imgDownloadPath env.sha with ⟨rt, tt⟩
      have hhead : ∃ t2, tt = Ev.getVideoStreamEv :: t2 := by
        rcases phTier_head env.tier env.imgDownloadPath env.sha with ⟨t2, ht2⟩
        rw [htier] at ht2
        exact ⟨t2, ht2⟩
      have httAll : tt.all isTierEv = true := by
        have h := phTier_all env.tier env.imgDownloadPath env.sha
        rw [htier] at h
        exact h
      have httNd : tt.all notDfbB = true := all_weaken tier_imp_notDfb httAll
      cases rt with
      | error e2 =>
        dsimp only
        constructor
        · obtain ⟨t2, rfl⟩ := hhead
          simp
        · intro hmem
          rcases List.mem_append.mp hmem with h2 | h2
          · exact absurd (mem_of_all httNd (by simpa using h2)) (by decide)
          · exact absurd (cleanup_imp_notDfb _ (mem_of_all (phFinally_all env _) h2))
              (by decide)
      | ok okv =>
        dsimp only
        rcases ha : phAfterBufferAcquire env ([] ++ tt) okv.tempFilesCreated
          with ⟨r2, tb, fb⟩
        dsimp only
        have hall : tb.all notDfbB = true := by
          have h := phABA_all_any env ([] ++ tt) okv.tempFilesCreated
            (p := notDfbB) httNd rfl rfl rfl
          rw [ha] at h
          exact h
        constructor
        · rcases phABA_trace_shape env ([] ++ tt) okv.tempFilesCreated with ⟨tx, htx⟩
          rw [ha] at htx
          dsimp only at htx
          obtain ⟨t2, rfl⟩ := hhead
          rw [htx]
          simp
        · intro hmem
          rcases List.mem_append.mp hmem with h2 | h2
          · exact absurd (mem_of_all hall h2) (by decide)
          · exact absurd (cleanup_imp_notDfb _ (mem_of_all (phFinally_all env fb) h2))
              (by decide)

end NsfwDetector
